import Mathlib

/-!
Verification development for the `kdbplus` rusty_api typed value layer
(`src/kdbplus/src/rusty_api`).  The Rust code is shallowly embedded:

* machine integers (`u8`, `i16`, `i32`, `i64`) are modelled as `Nat`/`Int`
  (the layer copies them verbatim and never does arithmetic on them, so no
  wrap-around can be observed);
* `f32`/`f64` payloads are modelled as `Int` standing for their bit content
  (the layer only ever copies them bit-for-bit);
* `Cow`/`Box` ownership wrappers are elided, only the values are modelled;
* fallible Rust functions returning `Result<_, &'static str>` become
  `Except String _`; functions that can panic on some inputs return an
  `Option` whose `none` marks the panicking executions.
-/

namespace KdbPlus

/-! ### q type tags (`crate::qtype`)

The `qtype` module itself is not under `src/`; the numeric values are fixed
by the per-arm comments of `KVal::from` in `rusty_api/types/mod.rs`
(`/* -20 */ qtype::ENUM_ATOM => ...` and so on) and by the spec's type-tag
table. -/

namespace qtype

abbrev ERROR : Int := -128

abbrev ENUM_ATOM : Int := -20

abbrev TIME_ATOM : Int := -19

abbrev SECOND_ATOM : Int := -18

abbrev MINUTE_ATOM : Int := -17

abbrev TIMESPAN_ATOM : Int := -16

abbrev DATETIME_ATOM : Int := -15

abbrev DATE_ATOM : Int := -14

abbrev MONTH_ATOM : Int := -13

abbrev TIMESTAMP_ATOM : Int := -12

abbrev SYMBOL_ATOM : Int := -11

abbrev CHAR : Int := -10

abbrev FLOAT_ATOM : Int := -9

abbrev REAL_ATOM : Int := -8

abbrev LONG_ATOM : Int := -7

abbrev INT_ATOM : Int := -6

abbrev SHORT_ATOM : Int := -5

abbrev BYTE_ATOM : Int := -4

abbrev GUID_ATOM : Int := -2

abbrev BOOL_ATOM : Int := -1

abbrev COMPOUND_LIST : Int := 0

abbrev BOOL_LIST : Int := 1

abbrev GUID_LIST : Int := 2

abbrev BYTE_LIST : Int := 4

abbrev SHORT_LIST : Int := 5

abbrev INT_LIST : Int := 6

abbrev LONG_LIST : Int := 7

abbrev REAL_LIST : Int := 8

abbrev FLOAT_LIST : Int := 9

abbrev STRING : Int := 10

abbrev SYMBOL_LIST : Int := 11

abbrev TIMESTAMP_LIST : Int := 12

abbrev MONTH_LIST : Int := 13

abbrev DATE_LIST : Int := 14

abbrev DATETIME_LIST : Int := 15

abbrev TIMESPAN_LIST : Int := 16

abbrev MINUTE_LIST : Int := 17

abbrev SECOND_LIST : Int := 18

abbrev TIME_LIST : Int := 19

abbrev ENUM_LIST : Int := 20

abbrev TABLE : Int := 98

abbrev DICTIONARY : Int := 99

abbrev NULL : Int := 101

abbrev FOREIGN : Int := 112

abbrev SORTED_DICTIONARY : Int := 127

end qtype

/-- `[u8; 16]`, the GUID payload (`rusty_api/mod.rs`, struct `U`).  The
16-byte length is not enforced by the type; the code never inspects it. -/
abbrev Guid := List Nat

/-- Alias for `i64`-valued results (lengths are `i64` in the source).
Also keeps signatures inside the `KVal` namespace unambiguous, where
`Int` names a constructor. -/
abbrev I64 := Int

/-- Alias for Rust `bool` results, usable inside the `KVal` namespace
where `Bool` names a constructor. -/
abbrev RBool := Bool

/-- Alias for Rust string data (`&'static str` / `String`), usable inside
the `KVal` namespace where `String` names a constructor. -/
abbrev Str := String

/-- Alias for `List`, usable inside the `KData` namespace where `List`
names a constructor. -/
abbrev Seq (α : Type) := List α

/-- `KData<'a, T>` from `rusty_api/types/kdata.rs`: either a single atom or
a contiguous list of one scalar type.  The `Cow` (clone-on-write) wrappers
only govern ownership, not values, and are elided. -/
inductive KData (α : Type) where
  | Atom : α → KData α
  | List : List α → KData α
deriving Repr, DecidableEq

/-- `KVal<'a>` from `rusty_api/types/mod.rs`: the closed sum type over all
logical q types.

Representation notes:
* `Dictionary` carries the `KDict`'s two `Box<KVal>` fields (`keys`,
  `values`) inline, and `Table` carries its `KDict`'s fields inline, to
  avoid a mutually recursive type; the `KDict`/`KTable` wrapper structs are
  defined below on top of this type.
* `Real`/`Float`/`Datetime` (`f32`/`f64`) payloads are `Int` bit content.
* `Symbol` is an owned `String` as in the source. -/
inductive KVal where
  | CompoundList : List KVal → KVal
  | Bool : KData Bool → KVal
  | Guid : KData KdbPlus.Guid → KVal
  | Byte : KData Nat → KVal
  | Short : KData Int → KVal
  | Int : KData Int → KVal
  | Long : KData Int → KVal
  | Real : KData Int → KVal
  | Float : KData Int → KVal
  | Char : Char → KVal
  | Symbol : KData String → KVal
  | Timestamp : KData Int → KVal
  | Month : KData Int → KVal
  | Date : KData Int → KVal
  | Datetime : KData Int → KVal
  | Timespan : KData Int → KVal
  | Minute : KData Int → KVal
  | Second : KData Int → KVal
  | Time : KData Int → KVal
  | Enum : KData Int → Option String → KVal
  | String : String → KVal
  | Dictionary : KVal → KVal → KVal
  | Table : KVal → KVal → KVal
  | Error : String → KVal
  | Null : KVal

/-- `KDict<'a>` from `rusty_api/types/kdict.rs`: a validated pair of boxed
tagged values. -/
structure KDict where
  keys : KVal
  values : KVal

/-- `KTable<'a>` from `rusty_api/types/ktable.rs`: a `KDict` whose keys are
column names and whose values are the columns. -/
structure KTable where
  dict : KDict

/-- The `KVal::Dictionary` variant applied to a `KDict` (the source stores
the `KDict` struct directly in the variant). -/
def KDict.toKVal (d : KDict) : KVal := KVal.Dictionary d.keys d.values

/-- `KData::len` (`kdata.rs`): 1 for an atom, the element count for a
list.  Lengths are `i64` in the source, hence `Int`. -/
def KData.len {α : Type} : KData α → Int
  | .Atom _ => 1
  | .List l => (l.length : Int)

/-- `KData::is_empty` (`kdata.rs`). -/
def KData.is_empty {α : Type} : KData α → Bool
  | .Atom _ => false
  | .List l => l.isEmpty

/-- `KVal::len` (`types/mod.rs`): atom → 1, list → element count,
string → character count, table → row count, dictionary → key count,
null → 1.

The `Table` arm inlines `KTable::len` (`ktable.rs`), whose
`_ => unreachable!()` branch (values not a compound list) is a panic in the
source; it is mapped to the junk value 0 here — no claim evaluates `len`
on such a value. -/
def KVal.len : KVal → I64
  | .CompoundList l => (l.length : I64)
  | .Bool d => d.len
  | .Guid d => d.len
  | .Byte d => d.len
  | .Short d => d.len
  | .Int d => d.len
  | .Long d => d.len
  | .Real d => d.len
  | .Float d => d.len
  | .Char _ => 1
  | .Symbol d => d.len
  | .Timestamp d => d.len
  | .Month d => d.len
  | .Date d => d.len
  | .Datetime d => d.len
  | .Timespan d => d.len
  | .Minute d => d.len
  | .Second d => d.len
  | .Time d => d.len
  | .Enum d _ => d.len
  | .String s => (s.length : I64)
  | .Error _ => 1
  | .Table _ v =>
      match v with
      | .CompoundList (c :: _) => c.len
      | .CompoundList [] => 0
      | _ => 0
  | .Dictionary k _ => k.len
  | .Null => 1

/-- `KVal::is_empty` (`types/mod.rs`). -/
def KVal.is_empty (v : KVal) : RBool := v.len == 0

/-- `KVal::is_list` (`types/mod.rs`): `CompoundList`, every simple-list
shape, and `String` count as lists. -/
def KVal.is_list : KVal → RBool
  | .CompoundList _ => true
  | .Bool (.List _) => true
  | .Guid (.List _) => true
  | .Byte (.List _) => true
  | .Short (.List _) => true
  | .Int (.List _) => true
  | .Long (.List _) => true
  | .Real (.List _) => true
  | .Float (.List _) => true
  | .Symbol (.List _) => true
  | .Timestamp (.List _) => true
  | .Month (.List _) => true
  | .Date (.List _) => true
  | .Datetime (.List _) => true
  | .Timespan (.List _) => true
  | .Minute (.List _) => true
  | .Second (.List _) => true
  | .Time (.List _) => true
  | .Enum (.List _) _ => true
  | .String _ => true
  | _ => false

/-- `KVal::is_atom` (`types/mod.rs`). -/
def KVal.is_atom : KVal → RBool
  | .Char _ => true
  | .Bool (.Atom _) => true
  | .Guid (.Atom _) => true
  | .Byte (.Atom _) => true
  | .Short (.Atom _) => true
  | .Int (.Atom _) => true
  | .Long (.Atom _) => true
  | .Real (.Atom _) => true
  | .Float (.Atom _) => true
  | .Symbol (.Atom _) => true
  | .Timestamp (.Atom _) => true
  | .Month (.Atom _) => true
  | .Date (.Atom _) => true
  | .Datetime (.Atom _) => true
  | .Timespan (.Atom _) => true
  | .Minute (.Atom _) => true
  | .Second (.Atom _) => true
  | .Time (.Atom _) => true
  | .Enum (.Atom _) _ => true
  | _ => false

/-- `KVal::to_compound_list` (`types/mod.rs`): converts a simple list into a
`CompoundList` of single-atom values of the same variant; a `CompoundList`
is returned as-is; an `Enum` list without a source, or a non-list, errors.
The per-variant `to_compound!` macro arms become `List.map` applications. -/
def KVal.to_compound_list : KVal → Except Str KVal
  | .CompoundList list => .ok (.CompoundList list)
  | .Bool (.List l) => .ok (.CompoundList (l.map (fun a => .Bool (.Atom a))))
  | .Guid (.List l) => .ok (.CompoundList (l.map (fun a => .Guid (.Atom a))))
  | .Byte (.List l) => .ok (.CompoundList (l.map (fun a => .Byte (.Atom a))))
  | .Short (.List l) => .ok (.CompoundList (l.map (fun a => .Short (.Atom a))))
  | .Int (.List l) => .ok (.CompoundList (l.map (fun a => .Int (.Atom a))))
  | .Long (.List l) => .ok (.CompoundList (l.map (fun a => .Long (.Atom a))))
  | .Real (.List l) => .ok (.CompoundList (l.map (fun a => .Real (.Atom a))))
  | .Float (.List l) => .ok (.CompoundList (l.map (fun a => .Float (.Atom a))))
  | .Symbol (.List l) => .ok (.CompoundList (l.map (fun a => .Symbol (.Atom a))))
  | .Timestamp (.List l) => .ok (.CompoundList (l.map (fun a => .Timestamp (.Atom a))))
  | .Month (.List l) => .ok (.CompoundList (l.map (fun a => .Month (.Atom a))))
  | .Date (.List l) => .ok (.CompoundList (l.map (fun a => .Date (.Atom a))))
  | .Datetime (.List l) => .ok (.CompoundList (l.map (fun a => .Datetime (.Atom a))))
  | .Timespan (.List l) => .ok (.CompoundList (l.map (fun a => .Timespan (.Atom a))))
  | .Minute (.List l) => .ok (.CompoundList (l.map (fun a => .Minute (.Atom a))))
  | .Second (.List l) => .ok (.CompoundList (l.map (fun a => .Second (.Atom a))))
  | .Time (.List l) => .ok (.CompoundList (l.map (fun a => .Time (.Atom a))))
  | .Enum (.List l) source =>
      if source.isNone then
        .error "Enum list must have exactly one source per atom\x00"
      else
        .ok (.CompoundList (l.map (fun a => .Enum (.Atom a) source)))
  | _ => .error "self is not a simple list\x00"

/-- `KVal::join` (`types/mod.rs`): appends `other` to `base`.  Two
`CompoundList`s, or two simple lists of the same variant, concatenate in
`[base…, other…]` order; every other combination (atoms included) falls to
the catch-all error.  An `Enum` join keeps `base`'s source if set, else
`other`'s (`bs.or(os)`). -/
def KVal.join : KVal → KVal → Except Str KVal
  | .CompoundList base_list, .CompoundList other_list =>
      .ok (.CompoundList (base_list ++ other_list))
  | .Bool (.List bl), .Bool (.List ol) => .ok (.Bool (.List (bl ++ ol)))
  | .Guid (.List bl), .Guid (.List ol) => .ok (.Guid (.List (bl ++ ol)))
  | .Byte (.List bl), .Byte (.List ol) => .ok (.Byte (.List (bl ++ ol)))
  | .Short (.List bl), .Short (.List ol) => .ok (.Short (.List (bl ++ ol)))
  | .Int (.List bl), .Int (.List ol) => .ok (.Int (.List (bl ++ ol)))
  | .Long (.List bl), .Long (.List ol) => .ok (.Long (.List (bl ++ ol)))
  | .Real (.List bl), .Real (.List ol) => .ok (.Real (.List (bl ++ ol)))
  | .Float (.List bl), .Float (.List ol) => .ok (.Float (.List (bl ++ ol)))
  | .Symbol (.List bl), .Symbol (.List ol) => .ok (.Symbol (.List (bl ++ ol)))
  | .Timestamp (.List bl), .Timestamp (.List ol) => .ok (.Timestamp (.List (bl ++ ol)))
  | .Month (.List bl), .Month (.List ol) => .ok (.Month (.List (bl ++ ol)))
  | .Date (.List bl), .Date (.List ol) => .ok (.Date (.List (bl ++ ol)))
  | .Datetime (.List bl), .Datetime (.List ol) => .ok (.Datetime (.List (bl ++ ol)))
  | .Timespan (.List bl), .Timespan (.List ol) => .ok (.Timespan (.List (bl ++ ol)))
  | .Minute (.List bl), .Minute (.List ol) => .ok (.Minute (.List (bl ++ ol)))
  | .Second (.List bl), .Second (.List ol) => .ok (.Second (.List (bl ++ ol)))
  | .Time (.List bl), .Time (.List ol) => .ok (.Time (.List (bl ++ ol)))
  | .Enum (.List bl) bs, .Enum (.List ol) os =>
      .ok (.Enum (.List (bl ++ ol)) (bs.or os))
  | _, _ => .error "not a list or types do not match\x00"

/-- The non-enum arm of the `to_list!` macro in `KVal::to_list`
(`types/mod.rs`): an atom becomes a one-element list of the same variant,
a list is passed through. -/
def KVal.toListData {α : Type} (d : KData α) (mk : KData α → KVal) : Except Str KVal :=
  match d with
  | .Atom atom => .ok (mk (.List [atom]))
  | .List list => .ok (mk (.List list))

/-- `KVal::to_list` (`types/mod.rs`): lifts an atom to a one-element list,
passes lists through, errors on other variants.  The `Enum` list arm
evaluates `src.or_else(|| unimplemented!("an enum list must have a source"))`:
when the recorded source is `None`, the closure runs and the call
*panics* — modelled by the outer `Option`'s `none`. -/
def KVal.to_list : KVal → Option (Except Str KVal)
  | .CompoundList list => some (.ok (.CompoundList list))
  | .Bool d => some (toListData d .Bool)
  | .Guid d => some (toListData d .Guid)
  | .Byte d => some (toListData d .Byte)
  | .Short d => some (toListData d .Short)
  | .Int d => some (toListData d .Int)
  | .Long d => some (toListData d .Long)
  | .Real d => some (toListData d .Real)
  | .Float d => some (toListData d .Float)
  | .Symbol d => some (toListData d .Symbol)
  | .Timestamp d => some (toListData d .Timestamp)
  | .Month d => some (toListData d .Month)
  | .Date d => some (toListData d .Date)
  | .Datetime d => some (toListData d .Datetime)
  | .Timespan d => some (toListData d .Timespan)
  | .Minute d => some (toListData d .Minute)
  | .Second d => some (toListData d .Second)
  | .Time d => some (toListData d .Time)
  | .Enum d src =>
      match d with
      | .Atom atom => some (.ok (.Enum (.List [atom]) src))
      | .List list =>
          match src with
          | some s => some (.ok (.Enum (.List list) (some s)))
          | none => none
  | _ => some (.error "invalid type\x00")

/-- `KDict::new` (`kdict.rs`): both sides must be lists of equal length;
each violation yields the corresponding static error, no panic. -/
def KDict.new (keys : KVal) (values : KVal) : Except Str KDict :=
  if !keys.is_list then
    .error "invalid keys, must be a list\x00"
  else if !values.is_list then
    .error "invalid values, must be a list\x00"
  else if keys.len ≠ values.len then
    .error "invalid dictionary, keys and values must be of equal length\x00"
  else
    .ok ⟨keys, values⟩

/-- `KDict::get_keys` (`kdict.rs`). -/
def KDict.get_keys (d : KDict) : KVal := d.keys

/-- `KDict::get_values` (`kdict.rs`). -/
def KDict.get_values (d : KDict) : KVal := d.values

/-- `KDict::len` (`kdict.rs`): the length of the keys list. -/
def KDict.len (d : KDict) : I64 := d.keys.len

/-- `KDict::is_empty` (`kdict.rs`). -/
def KDict.is_empty (d : KDict) : RBool := d.len == 0

/-- `i64` index used as `usize` on a slice (`index as usize` followed by
`slice::get`): a negative `i64` wraps to ≥ 2^63 and is out of bounds for
any list such a slice can hold. -/
def listGetI64 {α : Type} (l : List α) (i : Int) : Option α :=
  if i < 0 then none else l.get? i.toNat

/-- `KTable::new` (`ktable.rs`): keys must be a symbol list and values a
compound list.  The equal-length/lists scan over the columns is under
`#[cfg(debug_assertions)]` in the source (spec §9 open question); it is
included here, and its `columns[0]` indexing of an empty compound list is
the panic marked by `none`. -/
def KTable.new (kdict : KDict) : Option (Except Str KTable) :=
  match kdict.get_keys with
  | .Symbol (.List _) =>
      match kdict.get_values with
      | .CompoundList columns =>
          match columns with
          | [] => none
          | c0 :: _ =>
              if columns.all (fun x => x.len == c0.len && x.is_list) then
                some (.ok ⟨kdict⟩)
              else
                some (.error "invalid table, all columns must be lists with the same length\x00")
      | _ => some (.error "columns must be in a compound list\x00")
  | _ => some (.error "keys must be a symbol list\x00")

/-- `KTable::len` (`ktable.rs`): the length of column 0, or 0 for an empty
compound list.  The `_ => unreachable!()` arm (values not a compound list)
is a panic in the source, mapped to the junk value 0 as in `KVal::len`. -/
def KTable.len (t : KTable) : I64 :=
  match t.dict.values with
  | .CompoundList (c :: _) => c.len
  | .CompoundList [] => 0
  | _ => 0

/-- `KTable::is_empty` (`ktable.rs`). -/
def KTable.is_empty (t : KTable) : RBool := t.len == 0

/-- `KTable::get_column` (`ktable.rs`): index into the compound list of
columns; for an enum column the caller-supplied `enum_source` takes
precedence over the recorded one (`enum_source.or(*src)`), and the call
fails if both are absent. -/
def KTable.get_column (t : KTable) (index : I64) (enum_source : Option Str) :
    Except Str KVal :=
  match t.dict.values with
  | .CompoundList columns =>
      match listGetI64 columns index with
      | none => .error "invalid column index\x00"
      | some column =>
          if !column.is_list then
            .error "columns must be lists\x00"
          else
            match column with
            | .Enum (.List enums) src =>
                match enum_source.or src with
                | none => .error "enum_source must be provided for enumerated columns\x00"
                | some source => .ok (.Enum (.List enums) (some source))
            | col => .ok col
  | _ => .error "values must be a compound list\x00"

/-- The `atom_from_column_at_row!` macro of `KTable::get_row` (`ktable.rs`):
the `index`-th element of a simple-list column, promoted to an atom of the
same variant, or the short-column error. -/
def KTable.atomFromColumnAtRow {α : Type} (l : List α) (index : I64) (mk : α → KVal) :
    Except Str KVal :=
  match listGetI64 l index with
  | some a => .ok (mk a)
  | none => .error "index out of bounds, columns were not the same length\x00"

/-- The per-column body of `KTable::get_row`'s loop (`ktable.rs`): the
extracted `value_of_column_at_row` for one column, paired with the updated
`enum_index` counter (incremented only on enum columns, which use it to
index `enum_sources` via `enum_sources.get(enum_index).unwrap_or(src)`). -/
def KTable.getRowStep (index : I64) (enum_sources : List (Option Str))
    (column : KVal) (enumIdx : Nat) : Except Str KVal × Nat :=
  match column with
        | .Enum (.List enumerated_column) src =>
            (match (enum_sources.get? enumIdx).getD src with
             | none => .error "enum source must be provided for enumerated columns\x00"
             | some enum_source =>
                 KTable.atomFromColumnAtRow enumerated_column index
                   (fun v => .Enum (.Atom v) (some enum_source)),
             enumIdx + 1)
        | .CompoundList col =>
            (match listGetI64 col index with
             | some v => .ok v
             | none => .error "index out of bounds, columns were not the same length\x00",
             enumIdx)
        | .Bool (.List col) =>
            (KTable.atomFromColumnAtRow col index (fun v => .Bool (.Atom v)), enumIdx)
        | .Guid (.List col) =>
            (KTable.atomFromColumnAtRow col index (fun v => .Guid (.Atom v)), enumIdx)
        | .Byte (.List col) =>
            (KTable.atomFromColumnAtRow col index (fun v => .Byte (.Atom v)), enumIdx)
        | .Short (.List col) =>
            (KTable.atomFromColumnAtRow col index (fun v => .Short (.Atom v)), enumIdx)
        | .Int (.List col) =>
            (KTable.atomFromColumnAtRow col index (fun v => .Int (.Atom v)), enumIdx)
        | .Long (.List col) =>
            (KTable.atomFromColumnAtRow col index (fun v => .Long (.Atom v)), enumIdx)
        | .Real (.List col) =>
            (KTable.atomFromColumnAtRow col index (fun v => .Real (.Atom v)), enumIdx)
        | .Float (.List col) =>
            (KTable.atomFromColumnAtRow col index (fun v => .Float (.Atom v)), enumIdx)
        | .String s =>
            (match listGetI64 s.toList index with
             | some c => .ok (.Char c)
             | none => .error "index out of bounds, columns were not the same length\x00",
             enumIdx)
        | .Symbol (.List col) =>
            (KTable.atomFromColumnAtRow col index (fun v => .Symbol (.Atom v)), enumIdx)
        | .Timestamp (.List col) =>
            (KTable.atomFromColumnAtRow col index (fun v => .Timestamp (.Atom v)), enumIdx)
        | .Month (.List col) =>
            (KTable.atomFromColumnAtRow col index (fun v => .Month (.Atom v)), enumIdx)
        | .Date (.List col) =>
            (KTable.atomFromColumnAtRow col index (fun v => .Date (.Atom v)), enumIdx)
        | .Datetime (.List col) =>
            (KTable.atomFromColumnAtRow col index (fun v => .Datetime (.Atom v)), enumIdx)
        | .Timespan (.List col) =>
            (KTable.atomFromColumnAtRow col index (fun v => .Timespan (.Atom v)), enumIdx)
        | .Minute (.List col) =>
            (KTable.atomFromColumnAtRow col index (fun v => .Minute (.Atom v)), enumIdx)
        | .Second (.List col) =>
            (KTable.atomFromColumnAtRow col index (fun v => .Second (.Atom v)), enumIdx)
        | .Time (.List col) =>
            (KTable.atomFromColumnAtRow col index (fun v => .Time (.Atom v)), enumIdx)
        | _ => (.error "columns must each be lists, within a compound list\x00", enumIdx)

/-- The column loop of `KTable::get_row` (`ktable.rs`): walks the columns
in order, accumulating the per-column values of `KTable.getRowStep`. -/
def KTable.getRowLoop (index : I64) (enum_sources : List (Option Str)) :
    List KVal → Nat → Except Str (List KVal)
  | [], _ => .ok []
  | column :: rest, enumIdx =>
      match KTable.getRowStep index enum_sources column enumIdx with
      | (value?, enumIdx') => do
          let value_of_column_at_row ← value?
          let row ← KTable.getRowLoop index enum_sources rest enumIdx'
          pure (value_of_column_at_row :: row)

/-- `KTable::get_row` (`ktable.rs`): pre-checks the index against column 0's
length only when the dictionary and `enum_sources` are both non-empty, then
builds the row dictionary.  The per-column `String` arm uses
`chars().nth(index)`; `CompoundList` columns pass the element through
unchanged. -/
def KTable.get_row (t : KTable) (index : I64) (enum_sources : List (Option Str)) :
    Except Str KVal := do
  if !t.dict.is_empty && !enum_sources.isEmpty then
    let c0 ← t.get_column 0 (enum_sources.headD none)
    if index ≥ c0.len then
      throw "index out of bounds\x00"
  match t.dict.values with
  | .CompoundList columns => do
      let row ← KTable.getRowLoop index enum_sources columns 0
      let d ← KDict.new t.dict.keys (.CompoundList row)
      pure d.toKVal
  | _ => throw "values must be a compound list\x00"

/-! ### The raw `K` object (`rusty_api/mod.rs`)

`K` is `{ m, a, qtype, attribute, refcount, value: k_inner }`; only the
type tag and the union payload carry information this layer reads, so the
bookkeeping bytes are elided.  The `k_inner` union is untagged in C; here
it is a tagged sum of the machine representations that the
`SafeToCastFromKInner` instances can read out of it, one constructor per
machine shape.  A cast against a non-matching tag reads garbage memory in
the source (UB); the cast accessors below return a fixed junk value in
that case, which no well-formed dispatch ever observes.  Child pointers
(`*mut K`) are `Option` to model null. -/
inductive KInnerF (κ : Type) where
  | bool : Bool → KInnerF κ
  | byte : Nat → KInnerF κ
  | i16 : Int → KInnerF κ
  | i32 : Int → KInnerF κ
  | i64 : Int → KInnerF κ
  | f32 : Int → KInnerF κ
  | f64 : Int → KInnerF κ
  | sym : String → KInnerF κ
  | guid : Guid → KInnerF κ
  | str : String → KInnerF κ
  | listBool : List Bool → KInnerF κ
  | listByte : List Nat → KInnerF κ
  | listI16 : List Int → KInnerF κ
  | listI32 : List Int → KInnerF κ
  | listI64 : List Int → KInnerF κ
  | listF32 : List Int → KInnerF κ
  | listF64 : List Int → KInnerF κ
  | listSym : List String → KInnerF κ
  | listGuid : List Guid → KInnerF κ
  | listK : List (Option κ) → KInnerF κ
  | kptr : Option κ → KInnerF κ

/-- Raw `K` object: type tag plus union payload (`rusty_api/mod.rs`,
`struct K`; `m`/`a`/`attribute`/`refcount` elided). -/
inductive K where
  | mk : Int → KInnerF K → K

/-- The `k_inner` union of a `K` object. -/
abbrev KInner := KInnerF K

/-- The `qtype` field of a raw `K` object. -/
def K.qtype : K → Int
  | .mk q _ => q

/-- The `value` (union payload) field of a raw `K` object. -/
def K.value : K → KInner
  | .mk _ v => v

/-! Cast accessors, one per `impl_safe_cast_for!` instance
(`rusty_api/mod.rs`): reinterpret the union as the given machine type.
On a tag/payload mismatch the source reads garbage (UB); here a junk
default is returned. -/

/-- `bool::cast` (via `impl_safe_cast_for!`). -/
def KInnerF.asBool : KInner → Bool
  | .bool b => b
  | _ => false

/-- `G::cast` (`u8`); also how `KVal::from`'s `CHAR` arm reads
`k.value.byte`. -/
def KInnerF.asByte : KInner → Nat
  | .byte b => b
  | _ => 0

/-- `H::cast` (`i16`). -/
def KInnerF.asI16 : KInner → Int
  | .i16 v => v
  | _ => 0

/-- `I::cast` (`i32`). -/
def KInnerF.asI32 : KInner → Int
  | .i32 v => v
  | _ => 0

/-- `J::cast` (`i64`). -/
def KInnerF.asI64 : KInner → Int
  | .i64 v => v
  | _ => 0

/-- `E::cast` (`f32`, bit content). -/
def KInnerF.asF32 : KInner → Int
  | .f32 v => v
  | _ => 0

/-- `F::cast` (`f64`, bit content). -/
def KInnerF.asF64 : KInner → Int
  | .f64 v => v
  | _ => 0

/-- `S::cast` followed by the `CStr` read in `KData::symbol`
(`kdata.rs`): the interned symbol text. -/
def KInnerF.asSym : KInner → String
  | .sym s => s
  | _ => ""

/-- `[u8; 16]::cast_with_ptr_offset` (`kdata.rs`, `guid_atom`): a GUID
atom is physically a one-element list, so the reference skips one
machine word; the offset is a layout fact with no observable effect on
the value read here. -/
def KInnerF.asGuidOffset : KInner → Guid
  | .guid g => g
  | _ => []

/-- `K::as_slice::<G>` + `str::from_utf8` on char data (the `ERROR` and
`STRING` arms of `KVal::from`): the byte buffer as its UTF-8 text. -/
def KInnerF.asStr : KInner → String
  | .str s => s
  | _ => ""

/-- `K::as_slice::<bool>`. -/
def KInnerF.asListBool : KInner → List Bool
  | .listBool l => l
  | _ => []

/-- `K::as_slice::<G>` (byte list). -/
def KInnerF.asListByte : KInner → List Nat
  | .listByte l => l
  | _ => []

/-- `K::as_slice::<H>`. -/
def KInnerF.asListI16 : KInner → List Int
  | .listI16 l => l
  | _ => []

/-- `K::as_slice::<I>`. -/
def KInnerF.asListI32 : KInner → List Int
  | .listI32 l => l
  | _ => []

/-- `K::as_slice::<J>`. -/
def KInnerF.asListI64 : KInner → List Int
  | .listI64 l => l
  | _ => []

/-- `K::as_slice::<E>` (f32 bit content). -/
def KInnerF.asListF32 : KInner → List Int
  | .listF32 l => l
  | _ => []

/-- `K::as_slice::<F>` (f64 bit content). -/
def KInnerF.asListF64 : KInner → List Int
  | .listF64 l => l
  | _ => []

/-- `K::as_slice::<S>` followed by the per-element `CStr` reads of
`KData::symbol_list` (`kdata.rs`). -/
def KInnerF.asListSym : KInner → List String
  | .listSym l => l
  | _ => []

/-- `K::as_slice::<[u8; 16]>`. -/
def KInnerF.asListGuid : KInner → List Guid
  | .listGuid l => l
  | _ => []

/-- `KData::atom` (`kdata.rs`) specialized by a cast capability:
`KData::Atom(Cow::Borrowed(k.cast()))`.  The `SafeToCastFromKInner`
per-type instances become the explicit `cast` argument because the model
collapses the distinct Rust machine types `i16`/`i32`/`i64`/… to `Int`. -/
def KData.atomOf {α : Type} (cast : KInner → α) (k : K) : KData α :=
  .Atom (cast k.value)

/-- `KData::list` (`kdata.rs`): `KData::List(Cow::Borrowed(k.as_slice()))`. -/
def KData.listOf {α : Type} (cast : KInner → Seq α) (k : K) : KData α :=
  .List (cast k.value)

/-- `KData::symbol` (`kdata.rs`): eager owned copy of the interned text. -/
def KData.symbolOf (k : K) : KData Str :=
  .Atom k.value.asSym

/-- `KData::symbol_list` (`kdata.rs`): eager owned copies. -/
def KData.symbol_listOf (k : K) : KData Str :=
  .List k.value.asListSym

/-- The non-recursive arms of `KVal::from` (`types/mod.rs`): every tag
except the recursive ones (`COMPOUND_LIST`, `TABLE`, `DICTIONARY`,
`SORTED_DICTIONARY`) and the panicking `FOREIGN` arm, which
`KVal.fromK` below dispatches first — the tag tests are mutually
exclusive equalities, so hoisting those arms preserves the source's
dispatch.  Unrecognized tags fall to `Null` as in the source. -/
def KVal.fromSimple (k : K) (enum_source : Option Str) : KVal :=
  if k.qtype = qtype.ERROR then .Error k.value.asStr
  else if k.qtype = qtype.ENUM_ATOM then .Enum (KData.atomOf KInnerF.asI64 k) enum_source
  else if k.qtype = qtype.TIME_ATOM then .Time (KData.atomOf KInnerF.asI32 k)
  else if k.qtype = qtype.SECOND_ATOM then .Second (KData.atomOf KInnerF.asI32 k)
  else if k.qtype = qtype.MINUTE_ATOM then .Minute (KData.atomOf KInnerF.asI32 k)
  else if k.qtype = qtype.TIMESPAN_ATOM then .Timespan (KData.atomOf KInnerF.asI64 k)
  else if k.qtype = qtype.DATETIME_ATOM then .Datetime (KData.atomOf KInnerF.asF64 k)
  else if k.qtype = qtype.DATE_ATOM then .Date (KData.atomOf KInnerF.asI32 k)
  else if k.qtype = qtype.MONTH_ATOM then .Month (KData.atomOf KInnerF.asI32 k)
  else if k.qtype = qtype.TIMESTAMP_ATOM then .Timestamp (KData.atomOf KInnerF.asI64 k)
  else if k.qtype = qtype.SYMBOL_ATOM then .Symbol (KData.symbolOf k)
  else if k.qtype = qtype.CHAR then .Char (Char.ofNat k.value.asByte)
  else if k.qtype = qtype.FLOAT_ATOM then .Float (KData.atomOf KInnerF.asF64 k)
  else if k.qtype = qtype.REAL_ATOM then .Real (KData.atomOf KInnerF.asF32 k)
  else if k.qtype = qtype.LONG_ATOM then .Long (KData.atomOf KInnerF.asI64 k)
  else if k.qtype = qtype.INT_ATOM then .Int (KData.atomOf KInnerF.asI32 k)
  else if k.qtype = qtype.SHORT_ATOM then .Short (KData.atomOf KInnerF.asI16 k)
  else if k.qtype = qtype.BYTE_ATOM then .Byte (KData.atomOf KInnerF.asByte k)
  else if k.qtype = qtype.GUID_ATOM then .Guid (KData.atomOf KInnerF.asGuidOffset k)
  else if k.qtype = qtype.BOOL_ATOM then .Bool (KData.atomOf KInnerF.asBool k)
  else if k.qtype = qtype.BOOL_LIST then .Bool (KData.listOf KInnerF.asListBool k)
  else if k.qtype = qtype.GUID_LIST then .Guid (KData.listOf KInnerF.asListGuid k)
  else if k.qtype = qtype.BYTE_LIST then .Byte (KData.listOf KInnerF.asListByte k)
  else if k.qtype = qtype.SHORT_LIST then .Short (KData.listOf KInnerF.asListI16 k)
  else if k.qtype = qtype.INT_LIST then .Int (KData.listOf KInnerF.asListI32 k)
  else if k.qtype = qtype.LONG_LIST then .Long (KData.listOf KInnerF.asListI64 k)
  else if k.qtype = qtype.REAL_LIST then .Real (KData.listOf KInnerF.asListF32 k)
  else if k.qtype = qtype.FLOAT_LIST then .Float (KData.listOf KInnerF.asListF64 k)
  else if k.qtype = qtype.STRING then .String k.value.asStr
  else if k.qtype = qtype.SYMBOL_LIST then .Symbol (KData.symbol_listOf k)
  else if k.qtype = qtype.TIMESTAMP_LIST then .Timestamp (KData.listOf KInnerF.asListI64 k)
  else if k.qtype = qtype.MONTH_LIST then .Month (KData.listOf KInnerF.asListI32 k)
  else if k.qtype = qtype.DATE_LIST then .Date (KData.listOf KInnerF.asListI32 k)
  else if k.qtype = qtype.DATETIME_LIST then .Datetime (KData.listOf KInnerF.asListF64 k)
  else if k.qtype = qtype.TIMESPAN_LIST then .Timespan (KData.listOf KInnerF.asListI64 k)
  else if k.qtype = qtype.MINUTE_LIST then .Minute (KData.listOf KInnerF.asListI32 k)
  else if k.qtype = qtype.SECOND_LIST then .Second (KData.listOf KInnerF.asListI32 k)
  else if k.qtype = qtype.TIME_LIST then .Time (KData.listOf KInnerF.asListI32 k)
  else if k.qtype = qtype.ENUM_LIST then .Enum (KData.listOf KInnerF.asListI64 k) enum_source
  else .Null

mutual

/-- `KVal::from` (`types/mod.rs`): tag dispatch from a Raw Value to the
tagged sum.  The recursive arms (`COMPOUND_LIST`, `TABLE`,
`DICTIONARY`, `SORTED_DICTIONARY`) and the panicking `FOREIGN` arm
(`todo!()`, hence `none`) are dispatched here; every other arm is the
non-recursive `KVal.fromSimple` above. -/
def KVal.fromK (k : K) (enum_source : Option Str) : Option KVal :=
  if k.qtype = qtype.COMPOUND_LIST then
    match k with
    | .mk _ (.listK children) =>
        (children.attach.mapM (fun cw => KVal.from_raw cw.1 enum_source)).map
          (fun vs => KVal.CompoundList vs)
    | _ => none
  else if k.qtype = qtype.TABLE then
    (KTable.new_from_k k).map (fun t => KVal.Table t.dict.keys t.dict.values)
  else if k.qtype = qtype.DICTIONARY then
    (KDict.new_from_k k).map (fun d => KVal.Dictionary d.keys d.values)
  else if k.qtype = qtype.FOREIGN then none
  else if k.qtype = qtype.SORTED_DICTIONARY then
    (KDict.new_from_k k).map (fun d => KVal.Dictionary d.keys d.values)
  else some (KVal.fromSimple k enum_source)
termination_by 2 * sizeOf k + 1
decreasing_by
  all_goals simp_wf
  all_goals first
    | omega
    | (have h := List.sizeOf_lt_of_mem cw.2; simp at h ⊢; omega)

/-- `KVal::from_raw` (`types/mod.rs`): a null pointer maps to `Null`, a
valid pointer dispatches through `KVal::from`. -/
def KVal.from_raw (k : Option K) (enum_source : Option Str) : Option KVal :=
  match k with
  | some k => KVal.fromK k enum_source
  | none => some .Null
termination_by 2 * sizeOf k
decreasing_by
  all_goals simp_wf
  all_goals omega

/-- `KDict::new_from_k` (`kdict.rs`): reconstruct a dictionary from an
already-validated Raw Value.  The `debug_assert!`s on the tag and on the
two-element payload, and the unchecked `slice[0]`/`slice[1]` indexing,
are the asserting internal path; their failures are `none`. -/
def KDict.new_from_k (k : K) : Option KDict :=
  if k.qtype = qtype.DICTIONARY ∨ k.qtype = qtype.SORTED_DICTIONARY then
    match k with
    | .mk _ (.listK [k1, k2]) => do
        let keys ← KVal.from_raw k1 none
        let values ← KVal.from_raw k2 none
        pure ⟨keys, values⟩
    | _ => none
  else none
termination_by 2 * sizeOf k
decreasing_by
  all_goals simp_wf
  all_goals omega

/-- `KTable::new_from_k` (`ktable.rs`): dereference the wrapped dictionary
(`&**k.cast::<*mut K>()`), reconstruct it, and wrap a lone non-compound
column into a one-element compound list (`KDict::new(...).unwrap()`); the
tag `debug_assert!`, a null wrapped pointer, and the `unwrap` are `none`. -/
def KTable.new_from_k (k : K) : Option KTable :=
  if k.qtype = qtype.TABLE then
    match k with
    | .mk _ (.kptr (some inner)) => do
        let dict ← KDict.new_from_k inner
        match dict.get_values with
        | .CompoundList _ => pure ⟨dict⟩
        | _ =>
            match KDict.new dict.get_keys (.CompoundList [dict.get_values]) with
            | .ok d => pure ⟨d⟩
            | .error _ => none
    | _ => none
  else none
termination_by 2 * sizeOf k
decreasing_by
  all_goals simp_wf
  all_goals omega

end

/-! ### Constructors consumed from the collaborator layer

The `re_exports.rs` wrappers below delegate to the `native` FFI module,
which is not under `src/`.  Modelled from the spec:  §6 lists the missing
`native` constructors (`kb`, `ku`, `kg`, `kh`, `ki`, `kj`, `ke`, `kf`,
`kc`, `ks`, `ktn`, `kp`, `xD`, `xT`, `krr`, `ka`, …) as trusted,
pre-existing primitives that allocate a Raw Value of the corresponding
tag holding the given content. -/

/-- `new_bool` (`re_exports.rs`), relabeling of `kb`.
Modelled from the spec: `native::kb` is not under `src/`. -/
def new_bool (boolean : Bool) : K := .mk qtype.BOOL_ATOM (.bool boolean)

/-- `new_guid` (`re_exports.rs`), relabeling of `ku`.
Modelled from the spec: `native::ku` is not under `src/`. -/
def new_guid (g : Guid) : K := .mk qtype.GUID_ATOM (.guid g)

/-- `new_byte` (`re_exports.rs`), relabeling of `kg`.
Modelled from the spec: `native::kg` is not under `src/`. -/
def new_byte (byte : Nat) : K := .mk qtype.BYTE_ATOM (.byte byte)

/-- `new_short` (`re_exports.rs`), relabeling of `kh`.
Modelled from the spec: `native::kh` is not under `src/`. -/
def new_short (short : Int) : K := .mk qtype.SHORT_ATOM (.i16 short)

/-- `new_int` (`re_exports.rs`), relabeling of `ki`.
Modelled from the spec: `native::ki` is not under `src/`. -/
def new_int (int : Int) : K := .mk qtype.INT_ATOM (.i32 int)

/-- `new_long` (`re_exports.rs`), relabeling of `kj`.
Modelled from the spec: `native::kj` is not under `src/`. -/
def new_long (long : Int) : K := .mk qtype.LONG_ATOM (.i64 long)

/-- `new_real` (`re_exports.rs`), relabeling of `ke` (bit content).
Modelled from the spec: `native::ke` is not under `src/`. -/
def new_real (real : Int) : K := .mk qtype.REAL_ATOM (.f32 real)

/-- `new_float` (`re_exports.rs`), relabeling of `kf` (bit content).
Modelled from the spec: `native::kf` is not under `src/`. -/
def new_float (float : Int) : K := .mk qtype.FLOAT_ATOM (.f64 float)

/-- `new_char` (`re_exports.rs`), relabeling of `kc`.
Modelled from the spec: `native::kc` is not under `src/`; it stores the
character's byte in the union's char field. -/
def new_char (character : Char) : K := .mk qtype.CHAR (.byte character.toNat)

/-- `new_symbol` (`re_exports.rs`), relabeling of `ks` after interning.
Modelled from the spec: `native::ks`/`ss` are not under `src/`; interning
deduplicates but preserves the text. -/
def new_symbol (symbol : Str) : K := .mk qtype.SYMBOL_ATOM (.sym symbol)

/-- `new_timestamp` (`re_exports.rs`), relabeling of `ktj(-12, …)`.
Modelled from the spec: the `native` constructor is not under `src/`. -/
def new_timestamp (nanoseconds : Int) : K := .mk qtype.TIMESTAMP_ATOM (.i64 nanoseconds)

/-- `new_month` (`re_exports.rs`).  Modelled from the spec: the `native`
constructor is not under `src/`. -/
def new_month (months : Int) : K := .mk qtype.MONTH_ATOM (.i32 months)

/-- `new_date` (`re_exports.rs`), relabeling of `kd`.  Modelled from the
spec: the `native` constructor is not under `src/`. -/
def new_date (days : Int) : K := .mk qtype.DATE_ATOM (.i32 days)

/-- `new_datetime` (`re_exports.rs`), relabeling of `kz` (bit content).
Modelled from the spec: the `native` constructor is not under `src/`. -/
def new_datetime (days : Int) : K := .mk qtype.DATETIME_ATOM (.f64 days)

/-- `new_timespan` (`re_exports.rs`), relabeling of `ktj(-16, …)`.
Modelled from the spec: the `native` constructor is not under `src/`. -/
def new_timespan (nanoseconds : Int) : K := .mk qtype.TIMESPAN_ATOM (.i64 nanoseconds)

/-- `new_minute` (`re_exports.rs`).  Modelled from the spec: the `native`
constructor is not under `src/`. -/
def new_minute (minutes : Int) : K := .mk qtype.MINUTE_ATOM (.i32 minutes)

/-- `new_second` (`re_exports.rs`).  Modelled from the spec: the `native`
constructor is not under `src/`. -/
def new_second (seconds : Int) : K := .mk qtype.SECOND_ATOM (.i32 seconds)

/-- `new_time` (`re_exports.rs`), relabeling of `kt`.  Modelled from the
spec: the `native` constructor is not under `src/`. -/
def new_time (milliseconds : Int) : K := .mk qtype.TIME_ATOM (.i32 milliseconds)

/-- `new_enum` (`re_exports.rs`): builds `` `source$source index `` through
the q interpreter.  Modelled from the spec: the interpreter call is not
under `src/`; on a resolvable source it yields an enum atom carrying the
index (the runtime-state failure paths — unknown or short source list —
are outside this model). -/
def new_enum (_source : Str) (index : Int) : K := .mk qtype.ENUM_ATOM (.i64 index)

/-- `new_string` (`re_exports.rs`), relabeling of `kp`.  Modelled from the
spec: `native::kp` is not under `src/`. -/
def new_string (string : Str) : K := .mk qtype.STRING (.str string)

/-- `new_error` (`re_exports.rs`), relabeling of `krr`.  Modelled from the
spec: `native::krr` is not under `src/`. -/
def new_error (message : Str) : K := .mk qtype.ERROR (.str message)

/-- `new_null` (`re_exports.rs`): `ka(NULL)` with the byte field zeroed.
Modelled from the spec: `native::ka` is not under `src/`. -/
def new_null : K := .mk qtype.NULL (.byte 0)

/-- `new_dictionary` (`re_exports.rs`), relabeling of `xD`.  Modelled from
the spec: `native::xD` is not under `src/`; it wraps the two lists in a
dictionary Raw Value. -/
def new_dictionary (keys : K) (values : K) : K :=
  .mk qtype.DICTIONARY (.listK [some keys, some values])

/-- `flip` (`re_exports.rs`): the dictionary-to-table transform; a
non-dictionary argument raises `krr("not a dictionary\0")`.  The `xT`
call is modelled from the spec (§6, "convert dictionary to table"). -/
def flip (dictionary : K) : K :=
  if dictionary.qtype = qtype.DICTIONARY then
    .mk qtype.TABLE (.kptr (some dictionary))
  else
    new_error "not a dictionary\x00"

/-- The `list_to_k!` macro of `KVal::to_k` (`types/mod.rs`):
`new_list(qtype, len)` followed by `copy_from_slice`, i.e. a freshly
allocated list Raw Value of the given tag holding the given buffer
(`new_list` relabels `native::ktn`, modelled from the spec). -/
def list_to_k (new_list_type : Int) (payload : KInner) : K :=
  .mk new_list_type payload

/-- `KVal::to_k` (`types/mod.rs`): the single conversion back to a newly
allocated Raw Value.  `none` marks the panicking executions: an `Enum`
atom whose source is `None` (`unwrap_or_else(|| unimplemented!(...))`),
and a symbol list element with an interior NUL
(`CString::new(...).expect(...)`). -/
def KVal.to_k : KVal → Option K
  | .CompoundList list => do
      let ks ← list.attach.mapM (fun c => c.1.to_k)
      pure (.mk qtype.COMPOUND_LIST (.listK (ks.map some)))
  | .Bool (.Atom atom) => some (new_bool atom)
  | .Bool (.List list) => some (list_to_k qtype.BOOL_LIST (.listBool list))
  | .Guid (.Atom atom) => some (new_guid atom)
  | .Guid (.List list) => some (list_to_k qtype.GUID_LIST (.listGuid list))
  | .Byte (.Atom atom) => some (new_byte atom)
  | .Byte (.List list) => some (list_to_k qtype.BYTE_LIST (.listByte list))
  | .Short (.Atom atom) => some (new_short atom)
  | .Short (.List list) => some (list_to_k qtype.SHORT_LIST (.listI16 list))
  | .Int (.Atom atom) => some (new_int atom)
  | .Int (.List list) => some (list_to_k qtype.INT_LIST (.listI32 list))
  | .Long (.Atom atom) => some (new_long atom)
  | .Long (.List list) => some (list_to_k qtype.LONG_LIST (.listI64 list))
  | .Real (.Atom atom) => some (new_real atom)
  | .Real (.List list) => some (list_to_k qtype.REAL_LIST (.listF32 list))
  | .Float (.Atom atom) => some (new_float atom)
  | .Float (.List list) => some (list_to_k qtype.FLOAT_LIST (.listF64 list))
  | .Symbol (.Atom atom) => some (new_symbol atom)
  | .Symbol (.List list) =>
      if list.any (fun s => s.contains (Char.ofNat 0)) then none
      else some (list_to_k qtype.SYMBOL_LIST (.listSym list))
  | .Timestamp (.Atom atom) => some (new_timestamp atom)
  | .Timestamp (.List list) => some (list_to_k qtype.TIMESTAMP_LIST (.listI64 list))
  | .Month (.Atom atom) => some (new_month atom)
  | .Month (.List list) => some (list_to_k qtype.MONTH_LIST (.listI32 list))
  | .Date (.Atom atom) => some (new_date atom)
  | .Date (.List list) => some (list_to_k qtype.DATE_LIST (.listI32 list))
  | .Datetime (.Atom atom) => some (new_datetime atom)
  | .Datetime (.List list) => some (list_to_k qtype.DATETIME_LIST (.listF64 list))
  | .Timespan (.Atom atom) => some (new_timespan atom)
  | .Timespan (.List list) => some (list_to_k qtype.TIMESPAN_LIST (.listI64 list))
  | .Minute (.Atom atom) => some (new_minute atom)
  | .Minute (.List list) => some (list_to_k qtype.MINUTE_LIST (.listI32 list))
  | .Second (.Atom atom) => some (new_second atom)
  | .Second (.List list) => some (list_to_k qtype.SECOND_LIST (.listI32 list))
  | .Time (.Atom atom) => some (new_time atom)
  | .Time (.List list) => some (list_to_k qtype.TIME_LIST (.listI32 list))
  | .Enum (.Atom atom) src =>
      match src with
      | some s => some (new_enum s atom)
      | none => none
  | .Enum (.List list) _ => some (list_to_k qtype.ENUM_LIST (.listI64 list))
  | .Char atom => some (new_char atom)
  | .String list => some (new_string list)
  | .Error err => some (new_error err)
  | .Null => some new_null
  | .Dictionary dkeys dvalues => do
      let k1 ← dkeys.to_k
      let k2 ← dvalues.to_k
      pure (new_dictionary k1 k2)
  | .Table tkeys tvalues => do
      let k1 ← tkeys.to_k
      let k2 ← tvalues.to_k
      pure (flip (new_dictionary k1 k2))
termination_by v => sizeOf v
decreasing_by
  all_goals simp_wf
  all_goals first
    | omega
    | (have h := List.sizeOf_lt_of_mem c.2; omega)

/-! ### Statement-side classifiers

The following definitions only build the hypotheses and conclusions of the
claims; they are not part of the program embedding. -/

/-- Which `KVal` variant a value carries, ignoring the payload.  Used to
state "the two operands' types mismatch". -/
def KVal.variant_tag : KVal → Nat
  | .CompoundList _ => 0
  | .Bool _ => 1
  | .Guid _ => 2
  | .Byte _ => 3
  | .Short _ => 4
  | .Int _ => 5
  | .Long _ => 6
  | .Real _ => 7
  | .Float _ => 8
  | .Char _ => 9
  | .Symbol _ => 10
  | .Timestamp _ => 11
  | .Month _ => 12
  | .Date _ => 13
  | .Datetime _ => 14
  | .Timespan _ => 15
  | .Minute _ => 16
  | .Second _ => 17
  | .Time _ => 18
  | .Enum _ _ => 19
  | .String _ => 20
  | .Dictionary _ _ => 21
  | .Table _ _ => 22
  | .Error _ => 23
  | .Null => 24

/-- The variants `KVal::join`'s documentation lists as unconditionally
rejected operands: `Error`, `Null`, `Char`, `String`, `Table`,
`Dictionary`. -/
def KVal.is_bad_join_operand : KVal → RBool
  | .Error _ => true
  | .Null => true
  | .Char _ => true
  | .String _ => true
  | .Table _ _ => true
  | .Dictionary _ _ => true
  | _ => false

/-- A simple (uniform scalar) list shape: any `KData.List` variant,
excluding `CompoundList` and `String`. -/
def KVal.is_simple_list : KVal → RBool
  | .Bool (.List _) => true
  | .Guid (.List _) => true
  | .Byte (.List _) => true
  | .Short (.List _) => true
  | .Int (.List _) => true
  | .Long (.List _) => true
  | .Real (.List _) => true
  | .Float (.List _) => true
  | .Symbol (.List _) => true
  | .Timestamp (.List _) => true
  | .Month (.List _) => true
  | .Date (.List _) => true
  | .Datetime (.List _) => true
  | .Timespan (.List _) => true
  | .Minute (.List _) => true
  | .Second (.List _) => true
  | .Time (.List _) => true
  | .Enum (.List _) _ => true
  | _ => false

/-- An enum value carries a recorded source (vacuously true for every
other variant).  Used as a hypothesis so that enum columns resolve. -/
def KVal.enum_sourced : KVal → RBool
  | .Enum _ src => src.isSome
  | _ => true

/-- Spec §4.6, stated in the spec's words for the `get_row` refinement
claim: "the `index`-th element of each column, promoted to a one-element
atom container" (a `CompoundList` column's element is already a full
value, a `String` column's element is a `Char`, an enum element keeps the
column's source). -/
def specRowElement (column : KVal) (index : Nat) : Option KVal :=
  match column with
  | .CompoundList l => l[index]?
  | .Bool (.List l) => (l[index]?).map (fun v => .Bool (.Atom v))
  | .Guid (.List l) => (l[index]?).map (fun v => .Guid (.Atom v))
  | .Byte (.List l) => (l[index]?).map (fun v => .Byte (.Atom v))
  | .Short (.List l) => (l[index]?).map (fun v => .Short (.Atom v))
  | .Int (.List l) => (l[index]?).map (fun v => .Int (.Atom v))
  | .Long (.List l) => (l[index]?).map (fun v => .Long (.Atom v))
  | .Real (.List l) => (l[index]?).map (fun v => .Real (.Atom v))
  | .Float (.List l) => (l[index]?).map (fun v => .Float (.Atom v))
  | .String s => (s.toList[index]?).map (fun c => .Char c)
  | .Symbol (.List l) => (l[index]?).map (fun v => .Symbol (.Atom v))
  | .Timestamp (.List l) => (l[index]?).map (fun v => .Timestamp (.Atom v))
  | .Month (.List l) => (l[index]?).map (fun v => .Month (.Atom v))
  | .Date (.List l) => (l[index]?).map (fun v => .Date (.Atom v))
  | .Datetime (.List l) => (l[index]?).map (fun v => .Datetime (.Atom v))
  | .Timespan (.List l) => (l[index]?).map (fun v => .Timespan (.Atom v))
  | .Minute (.List l) => (l[index]?).map (fun v => .Minute (.Atom v))
  | .Second (.List l) => (l[index]?).map (fun v => .Second (.Atom v))
  | .Time (.List l) => (l[index]?).map (fun v => .Time (.Atom v))
  | .Enum (.List l) src => (l[index]?).map (fun v => .Enum (.Atom v) src)
  | _ => none

/-! ### Helper lemmas -/

set_option maxHeartbeats 4000000 in
/-- Inversion for `KVal::join`: a successful join requires two operands of
the same variant, neither a rejected variant, and both lists. -/
theorem join_ok_shapes (b o r : KVal) (h : KVal.join b o = .ok r) :
    b.variant_tag = o.variant_tag ∧ b.is_bad_join_operand = false ∧
    o.is_bad_join_operand = false ∧ b.is_list = true ∧ o.is_list = true := by
  unfold KVal.join at h
  split at h <;>
    simp [KVal.variant_tag, KVal.is_bad_join_operand, KVal.is_list] at h ⊢

set_option maxHeartbeats 4000000 in
/-- `KVal::join` has a single error message. -/
theorem join_error_unique (b o : KVal) (m : Str) (h : KVal.join b o = .error m) :
    m = "not a list or types do not match\x00" := by
  unfold KVal.join at h
  split at h <;> simp_all

/-- An atom (in the sense of `KVal::is_atom`) is never a list. -/
theorem KVal.atom_is_not_list (v : KVal) (h : v.is_atom = true) : v.is_list = false := by
  cases v with
  | CompoundList l => simp [KVal.is_atom] at h
  | Bool d => cases d <;> simp_all [KVal.is_atom, KVal.is_list]
  | Guid d => cases d <;> simp_all [KVal.is_atom, KVal.is_list]
  | Byte d => cases d <;> simp_all [KVal.is_atom, KVal.is_list]
  | Short d => cases d <;> simp_all [KVal.is_atom, KVal.is_list]
  | Int d => cases d <;> simp_all [KVal.is_atom, KVal.is_list]
  | Long d => cases d <;> simp_all [KVal.is_atom, KVal.is_list]
  | Real d => cases d <;> simp_all [KVal.is_atom, KVal.is_list]
  | Float d => cases d <;> simp_all [KVal.is_atom, KVal.is_list]
  | Char c => rfl
  | Symbol d => cases d <;> simp_all [KVal.is_atom, KVal.is_list]
  | Timestamp d => cases d <;> simp_all [KVal.is_atom, KVal.is_list]
  | Month d => cases d <;> simp_all [KVal.is_atom, KVal.is_list]
  | Date d => cases d <;> simp_all [KVal.is_atom, KVal.is_list]
  | Datetime d => cases d <;> simp_all [KVal.is_atom, KVal.is_list]
  | Timespan d => cases d <;> simp_all [KVal.is_atom, KVal.is_list]
  | Minute d => cases d <;> simp_all [KVal.is_atom, KVal.is_list]
  | Second d => cases d <;> simp_all [KVal.is_atom, KVal.is_list]
  | Time d => cases d <;> simp_all [KVal.is_atom, KVal.is_list]
  | Enum d s => cases d <;> simp_all [KVal.is_atom, KVal.is_list]
  | String s => simp [KVal.is_atom] at h
  | Dictionary k v => simp [KVal.is_atom] at h
  | Table k v => simp [KVal.is_atom] at h
  | Error e => simp [KVal.is_atom] at h
  | Null => simp [KVal.is_atom] at h

/-- A simple list is not a `CompoundList`. -/
theorem KVal.simple_list_variant_ne_zero (v : KVal) (h : v.is_simple_list = true) :
    v.variant_tag ≠ 0 := by
  cases v <;> simp_all [KVal.is_simple_list, KVal.variant_tag]

/-- A "good" column's per-column step with an empty `enum_sources` slice:
a list column containing `idx`, with a recorded source if it is an enum
column, yields its `idx`-th element promoted to an atom — exactly
`specRowElement`. -/
theorem getRowStep_ok (c : KVal) (idx : Nat) (eIdx : Nat)
    (hl : c.is_list = true) (hlen : (idx : Int) < c.len) (hsrc : c.enum_sourced = true) :
    ∃ v n, specRowElement c idx = some v ∧
      KTable.getRowStep (idx : Int) [] c eIdx = (.ok v, n) := by
  have hge : ¬ ((idx : Int) < 0) := by omega
  cases c with
  | CompoundList l =>
      have hi : idx < l.length := by
        simp [KVal.len] at hlen; exact_mod_cast hlen
      refine ⟨l[idx], eIdx, ?_, ?_⟩
      · simp [specRowElement, List.getElem?_eq_getElem hi]
      · simp [KTable.getRowStep, listGetI64, hge, List.getElem?_eq_getElem hi]
  | Bool d =>
      cases d with
      | Atom a => simp [KVal.is_list] at hl
      | List l =>
          have hi : idx < l.length := by
            simp [KVal.len, KData.len] at hlen; exact_mod_cast hlen
          refine ⟨.Bool (.Atom l[idx]), eIdx, ?_, ?_⟩
          · simp [specRowElement, List.getElem?_eq_getElem hi]
          · simp [KTable.getRowStep, KTable.atomFromColumnAtRow, listGetI64, hge,
              List.getElem?_eq_getElem hi]
  | String s =>
      have hi : idx < s.toList.length := by
        simp [KVal.len] at hlen
        have : s.toList.length = s.length := by simp
        omega
      refine ⟨.Char s.toList[idx], eIdx, ?_, ?_⟩
      · simp [specRowElement, List.getElem?_eq_getElem hi]
      · simp [KTable.getRowStep, listGetI64, hge, String.toList, List.getElem?_eq_getElem hi,
          show s.data[idx]? = some s.data[idx] from List.getElem?_eq_getElem hi]
  | Enum d src =>
      cases d with
      | Atom a => simp [KVal.is_list] at hl
      | List l =>
          obtain ⟨s, rfl⟩ : ∃ s, src = some s := by
            cases src with
            | none => simp [KVal.enum_sourced] at hsrc
            | some s => exact ⟨s, rfl⟩
          have hi : idx < l.length := by
            simp [KVal.len, KData.len] at hlen; exact_mod_cast hlen
          refine ⟨.Enum (.Atom l[idx]) (some s), eIdx + 1, ?_, ?_⟩
          · simp [specRowElement, List.getElem?_eq_getElem hi]
          · simp [KTable.getRowStep, KTable.atomFromColumnAtRow, listGetI64, hge,
              List.getElem?_eq_getElem hi]
  | Guid d =>
      cases d with
      | Atom a => simp [KVal.is_list] at hl
      | List l =>
          have hi : idx < l.length := by
            simp [KVal.len, KData.len] at hlen; exact_mod_cast hlen
          refine ⟨.Guid (.Atom l[idx]), eIdx, ?_, ?_⟩
          · simp [specRowElement, List.getElem?_eq_getElem hi]
          · simp [KTable.getRowStep, KTable.atomFromColumnAtRow, listGetI64, hge,
              List.getElem?_eq_getElem hi]
  | Byte d =>
      cases d with
      | Atom a => simp [KVal.is_list] at hl
      | List l =>
          have hi : idx < l.length := by
            simp [KVal.len, KData.len] at hlen; exact_mod_cast hlen
          refine ⟨.Byte (.Atom l[idx]), eIdx, ?_, ?_⟩
          · simp [specRowElement, List.getElem?_eq_getElem hi]
          · simp [KTable.getRowStep, KTable.atomFromColumnAtRow, listGetI64, hge,
              List.getElem?_eq_getElem hi]
  | Short d =>
      cases d with
      | Atom a => simp [KVal.is_list] at hl
      | List l =>
          have hi : idx < l.length := by
            simp [KVal.len, KData.len] at hlen; exact_mod_cast hlen
          refine ⟨.Short (.Atom l[idx]), eIdx, ?_, ?_⟩
          · simp [specRowElement, List.getElem?_eq_getElem hi]
          · simp [KTable.getRowStep, KTable.atomFromColumnAtRow, listGetI64, hge,
              List.getElem?_eq_getElem hi]
  | Int d =>
      cases d with
      | Atom a => simp [KVal.is_list] at hl
      | List l =>
          have hi : idx < l.length := by
            simp [KVal.len, KData.len] at hlen; exact_mod_cast hlen
          refine ⟨.Int (.Atom l[idx]), eIdx, ?_, ?_⟩
          · simp [specRowElement, List.getElem?_eq_getElem hi]
          · simp [KTable.getRowStep, KTable.atomFromColumnAtRow, listGetI64, hge,
              List.getElem?_eq_getElem hi]
  | Long d =>
      cases d with
      | Atom a => simp [KVal.is_list] at hl
      | List l =>
          have hi : idx < l.length := by
            simp [KVal.len, KData.len] at hlen; exact_mod_cast hlen
          refine ⟨.Long (.Atom l[idx]), eIdx, ?_, ?_⟩
          · simp [specRowElement, List.getElem?_eq_getElem hi]
          · simp [KTable.getRowStep, KTable.atomFromColumnAtRow, listGetI64, hge,
              List.getElem?_eq_getElem hi]
  | Real d =>
      cases d with
      | Atom a => simp [KVal.is_list] at hl
      | List l =>
          have hi : idx < l.length := by
            simp [KVal.len, KData.len] at hlen; exact_mod_cast hlen
          refine ⟨.Real (.Atom l[idx]), eIdx, ?_, ?_⟩
          · simp [specRowElement, List.getElem?_eq_getElem hi]
          · simp [KTable.getRowStep, KTable.atomFromColumnAtRow, listGetI64, hge,
              List.getElem?_eq_getElem hi]
  | Float d =>
      cases d with
      | Atom a => simp [KVal.is_list] at hl
      | List l =>
          have hi : idx < l.length := by
            simp [KVal.len, KData.len] at hlen; exact_mod_cast hlen
          refine ⟨.Float (.Atom l[idx]), eIdx, ?_, ?_⟩
          · simp [specRowElement, List.getElem?_eq_getElem hi]
          · simp [KTable.getRowStep, KTable.atomFromColumnAtRow, listGetI64, hge,
              List.getElem?_eq_getElem hi]
  | Symbol d =>
      cases d with
      | Atom a => simp [KVal.is_list] at hl
      | List l =>
          have hi : idx < l.length := by
            simp [KVal.len, KData.len] at hlen; exact_mod_cast hlen
          refine ⟨.Symbol (.Atom l[idx]), eIdx, ?_, ?_⟩
          · simp [specRowElement, List.getElem?_eq_getElem hi]
          · simp [KTable.getRowStep, KTable.atomFromColumnAtRow, listGetI64, hge,
              List.getElem?_eq_getElem hi]
  | Timestamp d =>
      cases d with
      | Atom a => simp [KVal.is_list] at hl
      | List l =>
          have hi : idx < l.length := by
            simp [KVal.len, KData.len] at hlen; exact_mod_cast hlen
          refine ⟨.Timestamp (.Atom l[idx]), eIdx, ?_, ?_⟩
          · simp [specRowElement, List.getElem?_eq_getElem hi]
          · simp [KTable.getRowStep, KTable.atomFromColumnAtRow, listGetI64, hge,
              List.getElem?_eq_getElem hi]
  | Month d =>
      cases d with
      | Atom a => simp [KVal.is_list] at hl
      | List l =>
          have hi : idx < l.length := by
            simp [KVal.len, KData.len] at hlen; exact_mod_cast hlen
          refine ⟨.Month (.Atom l[idx]), eIdx, ?_, ?_⟩
          · simp [specRowElement, List.getElem?_eq_getElem hi]
          · simp [KTable.getRowStep, KTable.atomFromColumnAtRow, listGetI64, hge,
              List.getElem?_eq_getElem hi]
  | Date d =>
      cases d with
      | Atom a => simp [KVal.is_list] at hl
      | List l =>
          have hi : idx < l.length := by
            simp [KVal.len, KData.len] at hlen; exact_mod_cast hlen
          refine ⟨.Date (.Atom l[idx]), eIdx, ?_, ?_⟩
          · simp [specRowElement, List.getElem?_eq_getElem hi]
          · simp [KTable.getRowStep, KTable.atomFromColumnAtRow, listGetI64, hge,
              List.getElem?_eq_getElem hi]
  | Datetime d =>
      cases d with
      | Atom a => simp [KVal.is_list] at hl
      | List l =>
          have hi : idx < l.length := by
            simp [KVal.len, KData.len] at hlen; exact_mod_cast hlen
          refine ⟨.Datetime (.Atom l[idx]), eIdx, ?_, ?_⟩
          · simp [specRowElement, List.getElem?_eq_getElem hi]
          · simp [KTable.getRowStep, KTable.atomFromColumnAtRow, listGetI64, hge,
              List.getElem?_eq_getElem hi]
  | Timespan d =>
      cases d with
      | Atom a => simp [KVal.is_list] at hl
      | List l =>
          have hi : idx < l.length := by
            simp [KVal.len, KData.len] at hlen; exact_mod_cast hlen
          refine ⟨.Timespan (.Atom l[idx]), eIdx, ?_, ?_⟩
          · simp [specRowElement, List.getElem?_eq_getElem hi]
          · simp [KTable.getRowStep, KTable.atomFromColumnAtRow, listGetI64, hge,
              List.getElem?_eq_getElem hi]
  | Minute d =>
      cases d with
      | Atom a => simp [KVal.is_list] at hl
      | List l =>
          have hi : idx < l.length := by
            simp [KVal.len, KData.len] at hlen; exact_mod_cast hlen
          refine ⟨.Minute (.Atom l[idx]), eIdx, ?_, ?_⟩
          · simp [specRowElement, List.getElem?_eq_getElem hi]
          · simp [KTable.getRowStep, KTable.atomFromColumnAtRow, listGetI64, hge,
              List.getElem?_eq_getElem hi]
  | Second d =>
      cases d with
      | Atom a => simp [KVal.is_list] at hl
      | List l =>
          have hi : idx < l.length := by
            simp [KVal.len, KData.len] at hlen; exact_mod_cast hlen
          refine ⟨.Second (.Atom l[idx]), eIdx, ?_, ?_⟩
          · simp [specRowElement, List.getElem?_eq_getElem hi]
          · simp [KTable.getRowStep, KTable.atomFromColumnAtRow, listGetI64, hge,
              List.getElem?_eq_getElem hi]
  | Time d =>
      cases d with
      | Atom a => simp [KVal.is_list] at hl
      | List l =>
          have hi : idx < l.length := by
            simp [KVal.len, KData.len] at hlen; exact_mod_cast hlen
          refine ⟨.Time (.Atom l[idx]), eIdx, ?_, ?_⟩
          · simp [specRowElement, List.getElem?_eq_getElem hi]
          · simp [KTable.getRowStep, KTable.atomFromColumnAtRow, listGetI64, hge,
              List.getElem?_eq_getElem hi]
  | Char a => simp [KVal.is_list] at hl
  | Dictionary k v => simp [KVal.is_list] at hl
  | Table k v => simp [KVal.is_list] at hl
  | Error e => simp [KVal.is_list] at hl
  | Null => simp [KVal.is_list] at hl

/-- A column too short for `idx` makes the per-column step fail with the
short-column error (the enum source still resolves first). -/
theorem getRowStep_short (c : KVal) (idx : Nat) (eIdx : Nat)
    (hl : c.is_list = true) (hsrc : c.enum_sourced = true) (hlen : c.len ≤ (idx : Int)) :
    ∃ n, KTable.getRowStep (idx : Int) [] c eIdx
      = (.error "index out of bounds, columns were not the same length\x00", n) := by
  have hge : ¬ ((idx : Int) < 0) := by omega
  cases c with
  | CompoundList l =>
      have hi : l.length ≤ idx := by
        simp [KVal.len] at hlen; exact_mod_cast hlen
      exact ⟨eIdx, by simp [KTable.getRowStep, listGetI64, hge, List.getElem?_eq_none hi]⟩
  | Bool d =>
      cases d with
      | Atom a => simp [KVal.is_list] at hl
      | List l =>
          have hi : l.length ≤ idx := by
            simp [KVal.len, KData.len] at hlen; exact_mod_cast hlen
          exact ⟨eIdx, by simp [KTable.getRowStep, KTable.atomFromColumnAtRow, listGetI64,
            hge, List.getElem?_eq_none hi]⟩
  | Guid d =>
      cases d with
      | Atom a => simp [KVal.is_list] at hl
      | List l =>
          have hi : l.length ≤ idx := by
            simp [KVal.len, KData.len] at hlen; exact_mod_cast hlen
          exact ⟨eIdx, by simp [KTable.getRowStep, KTable.atomFromColumnAtRow, listGetI64,
            hge, List.getElem?_eq_none hi]⟩
  | Byte d =>
      cases d with
      | Atom a => simp [KVal.is_list] at hl
      | List l =>
          have hi : l.length ≤ idx := by
            simp [KVal.len, KData.len] at hlen; exact_mod_cast hlen
          exact ⟨eIdx, by simp [KTable.getRowStep, KTable.atomFromColumnAtRow, listGetI64,
            hge, List.getElem?_eq_none hi]⟩
  | Short d =>
      cases d with
      | Atom a => simp [KVal.is_list] at hl
      | List l =>
          have hi : l.length ≤ idx := by
            simp [KVal.len, KData.len] at hlen; exact_mod_cast hlen
          exact ⟨eIdx, by simp [KTable.getRowStep, KTable.atomFromColumnAtRow, listGetI64,
            hge, List.getElem?_eq_none hi]⟩
  | Int d =>
      cases d with
      | Atom a => simp [KVal.is_list] at hl
      | List l =>
          have hi : l.length ≤ idx := by
            simp [KVal.len, KData.len] at hlen; exact_mod_cast hlen
          exact ⟨eIdx, by simp [KTable.getRowStep, KTable.atomFromColumnAtRow, listGetI64,
            hge, List.getElem?_eq_none hi]⟩
  | Long d =>
      cases d with
      | Atom a => simp [KVal.is_list] at hl
      | List l =>
          have hi : l.length ≤ idx := by
            simp [KVal.len, KData.len] at hlen; exact_mod_cast hlen
          exact ⟨eIdx, by simp [KTable.getRowStep, KTable.atomFromColumnAtRow, listGetI64,
            hge, List.getElem?_eq_none hi]⟩
  | Real d =>
      cases d with
      | Atom a => simp [KVal.is_list] at hl
      | List l =>
          have hi : l.length ≤ idx := by
            simp [KVal.len, KData.len] at hlen; exact_mod_cast hlen
          exact ⟨eIdx, by simp [KTable.getRowStep, KTable.atomFromColumnAtRow, listGetI64,
            hge, List.getElem?_eq_none hi]⟩
  | Float d =>
      cases d with
      | Atom a => simp [KVal.is_list] at hl
      | List l =>
          have hi : l.length ≤ idx := by
            simp [KVal.len, KData.len] at hlen; exact_mod_cast hlen
          exact ⟨eIdx, by simp [KTable.getRowStep, KTable.atomFromColumnAtRow, listGetI64,
            hge, List.getElem?_eq_none hi]⟩
  | Symbol d =>
      cases d with
      | Atom a => simp [KVal.is_list] at hl
      | List l =>
          have hi : l.length ≤ idx := by
            simp [KVal.len, KData.len] at hlen; exact_mod_cast hlen
          exact ⟨eIdx, by simp [KTable.getRowStep, KTable.atomFromColumnAtRow, listGetI64,
            hge, List.getElem?_eq_none hi]⟩
  | Timestamp d =>
      cases d with
      | Atom a => simp [KVal.is_list] at hl
      | List l =>
          have hi : l.length ≤ idx := by
            simp [KVal.len, KData.len] at hlen; exact_mod_cast hlen
          exact ⟨eIdx, by simp [KTable.getRowStep, KTable.atomFromColumnAtRow, listGetI64,
            hge, List.getElem?_eq_none hi]⟩
  | Month d =>
      cases d with
      | Atom a => simp [KVal.is_list] at hl
      | List l =>
          have hi : l.length ≤ idx := by
            simp [KVal.len, KData.len] at hlen; exact_mod_cast hlen
          exact ⟨eIdx, by simp [KTable.getRowStep, KTable.atomFromColumnAtRow, listGetI64,
            hge, List.getElem?_eq_none hi]⟩
  | Date d =>
      cases d with
      | Atom a => simp [KVal.is_list] at hl
      | List l =>
          have hi : l.length ≤ idx := by
            simp [KVal.len, KData.len] at hlen; exact_mod_cast hlen
          exact ⟨eIdx, by simp [KTable.getRowStep, KTable.atomFromColumnAtRow, listGetI64,
            hge, List.getElem?_eq_none hi]⟩
  | Datetime d =>
      cases d with
      | Atom a => simp [KVal.is_list] at hl
      | List l =>
          have hi : l.length ≤ idx := by
            simp [KVal.len, KData.len] at hlen; exact_mod_cast hlen
          exact ⟨eIdx, by simp [KTable.getRowStep, KTable.atomFromColumnAtRow, listGetI64,
            hge, List.getElem?_eq_none hi]⟩
  | Timespan d =>
      cases d with
      | Atom a => simp [KVal.is_list] at hl
      | List l =>
          have hi : l.length ≤ idx := by
            simp [KVal.len, KData.len] at hlen; exact_mod_cast hlen
          exact ⟨eIdx, by simp [KTable.getRowStep, KTable.atomFromColumnAtRow, listGetI64,
            hge, List.getElem?_eq_none hi]⟩
  | Minute d =>
      cases d with
      | Atom a => simp [KVal.is_list] at hl
      | List l =>
          have hi : l.length ≤ idx := by
            simp [KVal.len, KData.len] at hlen; exact_mod_cast hlen
          exact ⟨eIdx, by simp [KTable.getRowStep, KTable.atomFromColumnAtRow, listGetI64,
            hge, List.getElem?_eq_none hi]⟩
  | Second d =>
      cases d with
      | Atom a => simp [KVal.is_list] at hl
      | List l =>
          have hi : l.length ≤ idx := by
            simp [KVal.len, KData.len] at hlen; exact_mod_cast hlen
          exact ⟨eIdx, by simp [KTable.getRowStep, KTable.atomFromColumnAtRow, listGetI64,
            hge, List.getElem?_eq_none hi]⟩
  | Time d =>
      cases d with
      | Atom a => simp [KVal.is_list] at hl
      | List l =>
          have hi : l.length ≤ idx := by
            simp [KVal.len, KData.len] at hlen; exact_mod_cast hlen
          exact ⟨eIdx, by simp [KTable.getRowStep, KTable.atomFromColumnAtRow, listGetI64,
            hge, List.getElem?_eq_none hi]⟩
  | String s =>
      have hi : s.data.length ≤ idx := by
        simp [KVal.len] at hlen
        have : s.data.length = s.length := by rfl
        omega
      exact ⟨eIdx, by simp [KTable.getRowStep, listGetI64, hge, List.getElem?_eq_none hi]⟩
  | Enum d src =>
      cases d with
      | Atom a => simp [KVal.is_list] at hl
      | List l =>
          obtain ⟨s, rfl⟩ : ∃ s, src = some s := by
            cases src with
            | none => simp [KVal.enum_sourced] at hsrc
            | some s => exact ⟨s, rfl⟩
          have hi : l.length ≤ idx := by
            simp [KVal.len, KData.len] at hlen; exact_mod_cast hlen
          exact ⟨eIdx + 1, by simp [KTable.getRowStep, KTable.atomFromColumnAtRow, listGetI64,
            hge, List.getElem?_eq_none hi]⟩
  | Char a => simp [KVal.is_list] at hl
  | Dictionary k v => simp [KVal.is_list] at hl
  | Table k v => simp [KVal.is_list] at hl
  | Error e => simp [KVal.is_list] at hl
  | Null => simp [KVal.is_list] at hl

/-- The whole column loop on good columns with an empty `enum_sources`
slice returns the promoted `idx`-th element of every column in order. -/
theorem getRowLoop_ok (idx : Nat) (cols : List KVal)
    (h : ∀ c ∈ cols, c.is_list = true ∧ (idx : Int) < c.len ∧ c.enum_sourced = true) :
    ∀ eIdx, ∃ row, KTable.getRowLoop (idx : Int) [] cols eIdx = .ok row
      ∧ row.length = cols.length
      ∧ ∀ j : Nat, row[j]? = cols[j]?.bind (fun c => specRowElement c idx) := by
  induction cols with
  | nil => exact fun eIdx => ⟨[], rfl, rfl, by simp⟩
  | cons c rest ih =>
      intro eIdx
      obtain ⟨hcl, hclen, hcsrc⟩ := h c (List.mem_cons_self c rest)
      obtain ⟨v, n, hspec, hstep⟩ := getRowStep_ok c idx eIdx hcl hclen hcsrc
      obtain ⟨row, hrow, hlen, hget⟩ :=
        ih (fun x hx => h x (List.mem_cons_of_mem c hx)) n
      refine ⟨v :: row, ?_, by simp [hlen], ?_⟩
      · rw [KTable.getRowLoop, hstep]
        simp [bind, Except.bind, hrow, pure, Except.pure]
      · intro j
        cases j with
        | zero => simp [hspec]
        | succ j => simp [hget j]

/-- `KTable::get_column` with no caller-supplied source returns a good
column unchanged (an enum column keeps its recorded source). -/
theorem get_column_good (tkeys : KVal) (cols : List KVal) (j : Nat) (c : KVal)
    (hc : cols[j]? = some c) (hl : c.is_list = true) (hsrc : c.enum_sourced = true) :
    KTable.get_column ⟨⟨tkeys, .CompoundList cols⟩⟩ (j : Int) none = .ok c := by
  have hge : ¬ ((j : Int) < 0) := by omega
  unfold KTable.get_column listGetI64
  simp [hge, hc, hl]
  split
  · rename_i l src
    cases src with
    | none => simp [KVal.enum_sourced] at hsrc
    | some s => simp
  · rfl

/-- With good columns before it, the first column too short for `idx`
surfaces the short-column error from the loop. -/
theorem getRowLoop_short (idx : Nat) (c : KVal) (rest : List KVal)
    (hl : c.is_list = true) (hsrc : c.enum_sourced = true) (hlen : c.len ≤ (idx : Int)) :
    ∀ (pre : List KVal),
      (∀ x ∈ pre, x.is_list = true ∧ (idx : Int) < x.len ∧ x.enum_sourced = true) →
      ∀ eIdx, KTable.getRowLoop (idx : Int) [] (pre ++ c :: rest) eIdx
        = .error "index out of bounds, columns were not the same length\x00" := by
  intro pre
  induction pre with
  | nil =>
      intro _ eIdx
      obtain ⟨n, hstep⟩ := getRowStep_short c idx eIdx hl hsrc hlen
      rw [List.nil_append, KTable.getRowLoop, hstep]
      simp [bind, Except.bind]
  | cons p pre ih =>
      intro hpre eIdx
      obtain ⟨hpl, hplen, hpsrc⟩ := hpre p (List.mem_cons_self p pre)
      obtain ⟨v, n, _, hstep⟩ := getRowStep_ok p idx eIdx hpl hplen hpsrc
      rw [List.cons_append, KTable.getRowLoop, hstep]
      simp [bind, Except.bind, ih (fun x hx => hpre x (List.mem_cons_of_mem p hx)) n]

/-! ### Claims -/

/-- C1.  Scalar round-trip: for every scalar q atom tag and every payload
of the corresponding machine type (zero, negative and extremal values
included, since the payloads are universally quantified), `KVal::from`
followed by `KVal::to_k` reproduces a Raw Value with the same type tag
and the same scalar content.  The char payload is a `u8` (`c < 256`);
the enum atom needs a source (`to_k` panics otherwise), supplied here as
`some src`.  The `native` constructors `to_k` relies on are modelled
from the spec (§6), as the `native` module is not under `src/`. -/
theorem C1_scalar_tag_roundtrip (b : Bool) (g : Guid) (u : Nat) (h16 : Int)
    (i : Int) (j : Int) (e : Int) (f : Int) (c : Nat) (s : String) (n : Int)
    (src : String) (es : Option String) (hc : c < 256) :
    (KVal.fromK (K.mk qtype.BOOL_ATOM (.bool b)) es).bind KVal.to_k
        = some (K.mk qtype.BOOL_ATOM (.bool b)) ∧
    (KVal.fromK (K.mk qtype.GUID_ATOM (.guid g)) es).bind KVal.to_k
        = some (K.mk qtype.GUID_ATOM (.guid g)) ∧
    (KVal.fromK (K.mk qtype.BYTE_ATOM (.byte u)) es).bind KVal.to_k
        = some (K.mk qtype.BYTE_ATOM (.byte u)) ∧
    (KVal.fromK (K.mk qtype.SHORT_ATOM (.i16 h16)) es).bind KVal.to_k
        = some (K.mk qtype.SHORT_ATOM (.i16 h16)) ∧
    (KVal.fromK (K.mk qtype.INT_ATOM (.i32 i)) es).bind KVal.to_k
        = some (K.mk qtype.INT_ATOM (.i32 i)) ∧
    (KVal.fromK (K.mk qtype.LONG_ATOM (.i64 j)) es).bind KVal.to_k
        = some (K.mk qtype.LONG_ATOM (.i64 j)) ∧
    (KVal.fromK (K.mk qtype.REAL_ATOM (.f32 e)) es).bind KVal.to_k
        = some (K.mk qtype.REAL_ATOM (.f32 e)) ∧
    (KVal.fromK (K.mk qtype.FLOAT_ATOM (.f64 f)) es).bind KVal.to_k
        = some (K.mk qtype.FLOAT_ATOM (.f64 f)) ∧
    (KVal.fromK (K.mk qtype.CHAR (.byte c)) es).bind KVal.to_k
        = some (K.mk qtype.CHAR (.byte c)) ∧
    (KVal.fromK (K.mk qtype.SYMBOL_ATOM (.sym s)) es).bind KVal.to_k
        = some (K.mk qtype.SYMBOL_ATOM (.sym s)) ∧
    (KVal.fromK (K.mk qtype.TIMESTAMP_ATOM (.i64 j)) es).bind KVal.to_k
        = some (K.mk qtype.TIMESTAMP_ATOM (.i64 j)) ∧
    (KVal.fromK (K.mk qtype.MONTH_ATOM (.i32 i)) es).bind KVal.to_k
        = some (K.mk qtype.MONTH_ATOM (.i32 i)) ∧
    (KVal.fromK (K.mk qtype.DATE_ATOM (.i32 i)) es).bind KVal.to_k
        = some (K.mk qtype.DATE_ATOM (.i32 i)) ∧
    (KVal.fromK (K.mk qtype.DATETIME_ATOM (.f64 f)) es).bind KVal.to_k
        = some (K.mk qtype.DATETIME_ATOM (.f64 f)) ∧
    (KVal.fromK (K.mk qtype.TIMESPAN_ATOM (.i64 j)) es).bind KVal.to_k
        = some (K.mk qtype.TIMESPAN_ATOM (.i64 j)) ∧
    (KVal.fromK (K.mk qtype.MINUTE_ATOM (.i32 i)) es).bind KVal.to_k
        = some (K.mk qtype.MINUTE_ATOM (.i32 i)) ∧
    (KVal.fromK (K.mk qtype.SECOND_ATOM (.i32 i)) es).bind KVal.to_k
        = some (K.mk qtype.SECOND_ATOM (.i32 i)) ∧
    (KVal.fromK (K.mk qtype.TIME_ATOM (.i32 i)) es).bind KVal.to_k
        = some (K.mk qtype.TIME_ATOM (.i32 i)) ∧
    (KVal.fromK (K.mk qtype.ENUM_ATOM (.i64 n)) (some src)).bind KVal.to_k
        = some (K.mk qtype.ENUM_ATOM (.i64 n)) := by
  refine ⟨?_, ?_, ?_, ?_, ?_, ?_, ?_, ?_, ?_, ?_, ?_, ?_, ?_, ?_, ?_, ?_, ?_, ?_, ?_⟩
  all_goals rw [KVal.fromK]
  all_goals norm_num [KVal.fromSimple, K.qtype, K.value, KData.atomOf, KData.symbolOf,
    KInnerF.asBool, KInnerF.asByte, KInnerF.asI16, KInnerF.asI32, KInnerF.asI64,
    KInnerF.asF32, KInnerF.asF64, KInnerF.asSym, KInnerF.asGuidOffset, KVal.to_k,
    new_bool, new_guid, new_byte, new_short, new_int, new_long, new_real, new_float,
    new_char, new_symbol, new_timestamp, new_month, new_date, new_datetime,
    new_timespan, new_minute, new_second, new_time, new_enum]
  all_goals try (intro a children _hq; simp)
  all_goals have hv : c.isValidChar := Or.inl (by omega)
  all_goals simp only [Char.ofNat, hv, dif_pos, Char.ofNatAux, Char.toNat]
  all_goals rfl

/-- C1 witness: the char-atom round-trip at byte 120 (`'x'`). -/
theorem C1_scalar_tag_roundtrip_witness :
    (KVal.fromK (K.mk qtype.CHAR (.byte 120)) none).bind KVal.to_k
      = some (K.mk qtype.CHAR (.byte 120)) :=
  (C1_scalar_tag_roundtrip true [] 0 0 0 0 0 0 120 "" 0 "" none
    (by decide)).2.2.2.2.2.2.2.2.1

/-- C2.  For every pair of simple lists of the same scalar type,
`KVal::join` succeeds and returns a simple list of that type holding
`base`'s elements followed by `other`'s elements (`++`, never the
reverse); in particular, for int lists,
`join(List([1,2]), List([3])) = List([1,2,3])`. -/
theorem C2_join_concatenates_same_type_simple_lists :
    (∀ bl ol : List Bool, KVal.join (.Bool (.List bl)) (.Bool (.List ol))
      = .ok (.Bool (.List (bl ++ ol)))) ∧
    (∀ bl ol : List Guid, KVal.join (.Guid (.List bl)) (.Guid (.List ol))
      = .ok (.Guid (.List (bl ++ ol)))) ∧
    (∀ bl ol : List Nat, KVal.join (.Byte (.List bl)) (.Byte (.List ol))
      = .ok (.Byte (.List (bl ++ ol)))) ∧
    (∀ bl ol : List Int, KVal.join (.Short (.List bl)) (.Short (.List ol))
      = .ok (.Short (.List (bl ++ ol)))) ∧
    (∀ bl ol : List Int, KVal.join (.Int (.List bl)) (.Int (.List ol))
      = .ok (.Int (.List (bl ++ ol)))) ∧
    (∀ bl ol : List Int, KVal.join (.Long (.List bl)) (.Long (.List ol))
      = .ok (.Long (.List (bl ++ ol)))) ∧
    (∀ bl ol : List Int, KVal.join (.Real (.List bl)) (.Real (.List ol))
      = .ok (.Real (.List (bl ++ ol)))) ∧
    (∀ bl ol : List Int, KVal.join (.Float (.List bl)) (.Float (.List ol))
      = .ok (.Float (.List (bl ++ ol)))) ∧
    (∀ bl ol : List String, KVal.join (.Symbol (.List bl)) (.Symbol (.List ol))
      = .ok (.Symbol (.List (bl ++ ol)))) ∧
    (∀ bl ol : List Int, KVal.join (.Timestamp (.List bl)) (.Timestamp (.List ol))
      = .ok (.Timestamp (.List (bl ++ ol)))) ∧
    (∀ bl ol : List Int, KVal.join (.Month (.List bl)) (.Month (.List ol))
      = .ok (.Month (.List (bl ++ ol)))) ∧
    (∀ bl ol : List Int, KVal.join (.Date (.List bl)) (.Date (.List ol))
      = .ok (.Date (.List (bl ++ ol)))) ∧
    (∀ bl ol : List Int, KVal.join (.Datetime (.List bl)) (.Datetime (.List ol))
      = .ok (.Datetime (.List (bl ++ ol)))) ∧
    (∀ bl ol : List Int, KVal.join (.Timespan (.List bl)) (.Timespan (.List ol))
      = .ok (.Timespan (.List (bl ++ ol)))) ∧
    (∀ bl ol : List Int, KVal.join (.Minute (.List bl)) (.Minute (.List ol))
      = .ok (.Minute (.List (bl ++ ol)))) ∧
    (∀ bl ol : List Int, KVal.join (.Second (.List bl)) (.Second (.List ol))
      = .ok (.Second (.List (bl ++ ol)))) ∧
    (∀ bl ol : List Int, KVal.join (.Time (.List bl)) (.Time (.List ol))
      = .ok (.Time (.List (bl ++ ol)))) ∧
    (∀ (bl ol : List Int) (bs os : Option String),
      KVal.join (.Enum (.List bl) bs) (.Enum (.List ol) os)
      = .ok (.Enum (.List (bl ++ ol)) (bs.or os))) ∧
    KVal.join (.Int (.List [1, 2])) (.Int (.List [3])) = .ok (.Int (.List [1, 2, 3])) := by
  refine ⟨?_, ?_, ?_, ?_, ?_, ?_, ?_, ?_, ?_, ?_, ?_, ?_, ?_, ?_, ?_, ?_, ?_, ?_, ?_⟩ <;>
    intros <;> rfl

/-- C3 counterexample.  The claim says an atom operand is treated as a
one-element list first, so `join(Int(Atom(1)), Int(Atom(2)))` should
succeed with `Int(List([1,2]))`; the code's `join` only matches
`List`-shaped operands and sends atoms to the catch-all error. -/
theorem C3_counterexample_atom_join_is_rejected :
    KVal.join (.Int (.Atom 1)) (.Int (.Atom 2))
      = .error "not a list or types do not match\x00" := by rfl

/-- C3 amended.  `KVal::join` does not promote atom operands: whenever
either operand is an atom (`KVal::is_atom`), the join fails with the
catch-all type error — only two simple lists of the same scalar type (or
two compound lists) concatenate. -/
theorem C3_amended_join_rejects_atom_operands (base other : KVal)
    (h : base.is_atom = true ∨ other.is_atom = true) :
    KVal.join base other = .error "not a list or types do not match\x00" := by
  cases hj : KVal.join base other with
  | error m => rw [join_error_unique base other m hj]
  | ok r =>
      exfalso
      obtain ⟨_, _, _, hbl, hol⟩ := join_ok_shapes base other r hj
      rcases h with h | h
      · rw [KVal.atom_is_not_list base h] at hbl
        exact Bool.noConfusion hbl
      · rw [KVal.atom_is_not_list other h] at hol
        exact Bool.noConfusion hol

/-- C3 amended, witness: a `Bool` atom joined with a `Bool` list is
rejected. -/
theorem C3_amended_join_rejects_atom_operands_witness :
    KVal.join (.Bool (.Atom true)) (.Bool (.List [false]))
      = .error "not a list or types do not match\x00" :=
  C3_amended_join_rejects_atom_operands (.Bool (.Atom true)) (.Bool (.List [false]))
    (Or.inl (by rfl))

/-- C4.  `KVal::join` returns a static, null-terminated error message (and
does not panic — the model is total) whenever the operands' variants
mismatch, either operand is `Error`/`Null`/`Char`/`String`/`Table`/
`Dictionary`, or a `CompoundList` meets a simple list on either side. -/
theorem C4_join_rejects_mismatched_or_unjoinable_operands (base other : KVal)
    (h : base.variant_tag ≠ other.variant_tag
      ∨ base.is_bad_join_operand = true
      ∨ other.is_bad_join_operand = true
      ∨ (base.variant_tag = 0 ∧ other.is_simple_list = true)
      ∨ (other.variant_tag = 0 ∧ base.is_simple_list = true)) :
    ∃ msg, KVal.join base other = .error msg ∧ msg.back = '\x00' := by
  cases hj : KVal.join base other with
  | error m =>
      rw [join_error_unique base other m hj]
      exact ⟨_, rfl, rfl⟩
  | ok r =>
      exfalso
      obtain ⟨htag, hbb, hob, _, _⟩ := join_ok_shapes base other r hj
      rcases h with h | h | h | ⟨h0, hs⟩ | ⟨h0, hs⟩
      · exact h htag
      · rw [hbb] at h; exact Bool.noConfusion h
      · rw [hob] at h; exact Bool.noConfusion h
      · exact KVal.simple_list_variant_ne_zero other hs (htag ▸ h0)
      · exact KVal.simple_list_variant_ne_zero base hs (h0 ▸ htag.symm ▸ rfl)

/-- C4 witness: `join(CompoundList([]), Int(List([1])))` fails with the
null-terminated type error. -/
theorem C4_join_rejects_mismatched_or_unjoinable_operands_witness :
    ∃ msg, KVal.join (.CompoundList []) (.Int (.List [1])) = .error msg
      ∧ msg.back = '\x00' :=
  C4_join_rejects_mismatched_or_unjoinable_operands (.CompoundList []) (.Int (.List [1]))
    (by simp [KVal.variant_tag])

/-- C5 (code bug).  `to_compound_list` on a `CompoundList` and `to_list`
on any list are no-ops — except that `to_list` on an `Enum` list whose
recorded source is `None` *panics* (`src.or_else(|| unimplemented!("an
enum list must have a source"))` in `types/mod.rs`), contradicting
`to_list`'s own documentation ("if the object is already a list, it will
be returned unchanged") and §7's no-panic policy; the final conjunct
evaluates the code at that failing input (`none` marks the panic). -/
theorem C5_to_list_panics_on_sourceless_enum_list :
    (∀ l : List KVal, KVal.to_compound_list (.CompoundList l) = .ok (.CompoundList l)) ∧
    (∀ l : List KVal, KVal.to_list (.CompoundList l) = some (.ok (.CompoundList l))) ∧
    (∀ l : List Bool, KVal.to_list (.Bool (.List l)) = some (.ok (.Bool (.List l)))) ∧
    (∀ l : List Guid, KVal.to_list (.Guid (.List l)) = some (.ok (.Guid (.List l)))) ∧
    (∀ l : List Nat, KVal.to_list (.Byte (.List l)) = some (.ok (.Byte (.List l)))) ∧
    (∀ l : List Int, KVal.to_list (.Short (.List l)) = some (.ok (.Short (.List l)))) ∧
    (∀ l : List Int, KVal.to_list (.Int (.List l)) = some (.ok (.Int (.List l)))) ∧
    (∀ l : List Int, KVal.to_list (.Long (.List l)) = some (.ok (.Long (.List l)))) ∧
    (∀ l : List Int, KVal.to_list (.Real (.List l)) = some (.ok (.Real (.List l)))) ∧
    (∀ l : List Int, KVal.to_list (.Float (.List l)) = some (.ok (.Float (.List l)))) ∧
    (∀ l : List String, KVal.to_list (.Symbol (.List l)) = some (.ok (.Symbol (.List l)))) ∧
    (∀ l : List Int, KVal.to_list (.Timestamp (.List l)) = some (.ok (.Timestamp (.List l)))) ∧
    (∀ l : List Int, KVal.to_list (.Month (.List l)) = some (.ok (.Month (.List l)))) ∧
    (∀ l : List Int, KVal.to_list (.Date (.List l)) = some (.ok (.Date (.List l)))) ∧
    (∀ l : List Int, KVal.to_list (.Datetime (.List l)) = some (.ok (.Datetime (.List l)))) ∧
    (∀ l : List Int, KVal.to_list (.Timespan (.List l)) = some (.ok (.Timespan (.List l)))) ∧
    (∀ l : List Int, KVal.to_list (.Minute (.List l)) = some (.ok (.Minute (.List l)))) ∧
    (∀ l : List Int, KVal.to_list (.Second (.List l)) = some (.ok (.Second (.List l)))) ∧
    (∀ l : List Int, KVal.to_list (.Time (.List l)) = some (.ok (.Time (.List l)))) ∧
    (∀ (l : List Int) (s : String),
      KVal.to_list (.Enum (.List l) (some s)) = some (.ok (.Enum (.List l) (some s)))) ∧
    KVal.to_list (.Enum (.List [0]) none) = none := by
  refine ⟨?_, ?_, ?_, ?_, ?_, ?_, ?_, ?_, ?_, ?_, ?_, ?_, ?_, ?_, ?_, ?_, ?_, ?_, ?_, ?_, ?_⟩ <;>
    intros <;> rfl

/-- C6.  `KDict::new` succeeds exactly when both arguments are lists of
equal length, returning a typed error otherwise (the model is total, so
no panic is possible); in particular symbol keys of length 2 with int
values of length 1 yield the length-parity error. -/
theorem C6_kdict_new_validates_lists_and_parity :
    (∀ keys values : KVal,
      (∃ d, KDict.new keys values = .ok d)
        ↔ (keys.is_list = true ∧ values.is_list = true ∧ keys.len = values.len)) ∧
    KDict.new (.Symbol (.List ["a", "b"])) (.Int (.List [1]))
      = .error "invalid dictionary, keys and values must be of equal length\x00" := by
  constructor
  · intro keys values
    constructor
    · rintro ⟨d, hd⟩
      unfold KDict.new at hd
      split_ifs at hd with h1 h2 h3
      all_goals simp_all
    · rintro ⟨h1, h2, h3⟩
      refine ⟨⟨keys, values⟩, ?_⟩
      unfold KDict.new
      simp [h1, h2, h3]
  · rfl

/-- C10.  `KVal::is_list` classifies `String` as a list, so `KDict::new`
accepts a string on either side: for every string `s` and every list
value `v` of the same length, the dictionary is built with the string as
its keys. -/
theorem C10_kdict_new_accepts_string_keys (s : String) (v : KVal)
    (hv : v.is_list = true) (hlen : (KVal.String s).len = v.len) :
    ∃ d, KDict.new (.String s) v = .ok d ∧ d.keys = .String s := by
  refine ⟨⟨.String s, v⟩, ?_, rfl⟩
  have hs : (KVal.String s).is_list = true := rfl
  unfold KDict.new
  simp [hs, hv, hlen]

/-- C10 witness: a two-character string keyed against a two-element int
list. -/
theorem C10_kdict_new_accepts_string_keys_witness :
    ∃ d, KDict.new (.String "ab") (.Int (.List [1, 2])) = .ok d
      ∧ d.keys = .String "ab" :=
  C10_kdict_new_accepts_string_keys "ab" (.Int (.List [1, 2])) (by rfl) (by rfl)

/-- C7.  `KTable::get_column` on an in-range enum column resolves the
source as `enum_source.or(recorded)`: a caller-supplied source overrides
the recorded one, `None` falls back to the recorded one, and the call
fails when neither is available. -/
theorem C7_get_column_enum_source_precedence (tkeys : KVal) (cols : List KVal)
    (i : Nat) (l : List Int) (rsrc : Option String) (es : Option String)
    (hcol : cols[i]? = some (.Enum (.List l) rsrc)) :
    KTable.get_column ⟨⟨tkeys, .CompoundList cols⟩⟩ (i : Int) es =
      match es.or rsrc with
      | some src => .ok (.Enum (.List l) (some src))
      | none => .error "enum_source must be provided for enumerated columns\x00" := by
  have hge : ¬ ((i : Int) < 0) := by omega
  unfold KTable.get_column listGetI64
  simp [hge, hcol, KVal.is_list]
  cases es <;> cases rsrc <;> simp [Option.or]

/-- C7 witness: a column with recorded source `"e1"` queried with
`Some("e2")` is attributed to `"e2"`. -/
theorem C7_get_column_enum_source_precedence_witness :
    KTable.get_column ⟨⟨.Symbol (.List ["c"]), .CompoundList [.Enum (.List [0]) (some "e1")]⟩⟩
        ((0 : Nat) : Int) (some "e2")
      = .ok (.Enum (.List [0]) (some "e2")) :=
  C7_get_column_enum_source_precedence (.Symbol (.List ["c"]))
    [.Enum (.List [0]) (some "e1")] 0 [0] (some "e1") (some "e2") (by rfl)

/-- C9.  In `KTable::get_row`, a present-but-`None` entry of
`enum_sources` at an enum column's position (its index among the *enum*
columns — here the enum is the second column but the first enum column)
takes priority over the recorded source and yields the "enum source must
be provided" error, while an empty slice (no entry at that position)
falls back to the recorded source and succeeds. -/
theorem C9_get_row_enum_sources_entry_none_overrides_recorded
    (syms : List String) (bl : List Bool) (l : List Int) (s : String) (i : Nat)
    (hsyms : syms.length = 2) (h1 : i < bl.length) (h2 : i < l.length) :
    KTable.get_row
        ⟨⟨.Symbol (.List syms), .CompoundList [.Bool (.List bl), .Enum (.List l) (some s)]⟩⟩
        (i : Int) [none]
      = .error "enum source must be provided for enumerated columns\x00"
    ∧ KTable.get_row
        ⟨⟨.Symbol (.List syms), .CompoundList [.Bool (.List bl), .Enum (.List l) (some s)]⟩⟩
        (i : Int) []
      = .ok (.Dictionary (.Symbol (.List syms))
          (.CompoundList [.Bool (.Atom bl[i]), .Enum (.Atom l[i]) (some s)])) := by
  have hge : ¬ ((i : Int) < 0) := by omega
  have hbl : bl[i]? = some (bl[i]) := List.getElem?_eq_getElem h1
  have hl : l[i]? = some (l[i]) := List.getElem?_eq_getElem h2
  constructor
  · unfold KTable.get_row
    simp [KDict.is_empty, KDict.len, KVal.len, KTable.get_column, listGetI64, KVal.is_list,
      KData.len, KTable.getRowLoop, KTable.getRowStep, KTable.atomFromColumnAtRow, hge]
    split_ifs with h0
    all_goals simp [hbl, bind, Except.bind, KVal.len, KData.len, Int.ofNat_eq_natCast]
    all_goals omega
  · unfold KTable.get_row
    simp [KDict.is_empty, KDict.len, KVal.len, KTable.get_column, listGetI64, KVal.is_list,
      KData.len, KTable.getRowLoop, KTable.getRowStep, KTable.atomFromColumnAtRow, hge,
      hbl, hl, bind, Except.bind, pure, Except.pure, KDict.new, KDict.toKVal, hsyms]

/-- C9 witness: a one-row table whose enum column records `"e1"`. -/
theorem C9_get_row_enum_sources_entry_none_overrides_recorded_witness :
    KTable.get_row
        ⟨⟨.Symbol (.List ["a", "b"]), .CompoundList [.Bool (.List [true]), .Enum (.List [7]) (some "e1")]⟩⟩
        ((0 : Nat) : Int) [none]
      = .error "enum source must be provided for enumerated columns\x00"
    ∧ KTable.get_row
        ⟨⟨.Symbol (.List ["a", "b"]), .CompoundList [.Bool (.List [true]), .Enum (.List [7]) (some "e1")]⟩⟩
        ((0 : Nat) : Int) []
      = .ok (.Dictionary (.Symbol (.List ["a", "b"]))
          (.CompoundList [.Bool (.Atom true), .Enum (.Atom 7) (some "e1")])) :=
  C9_get_row_enum_sources_entry_none_overrides_recorded ["a", "b"] [true] [7] "e1" 0
    (by rfl) (by decide) (by decide)


/-- C8.  `KTable::get_row`, called with an empty `enum_sources` slice:
(1) on a table whose columns are all lists sharing one length (each enum
column carrying a recorded source) and an in-range row index, it returns
a `Dictionary` keyed by the table's column names whose values list holds,
per column, the `idx`-th element of the corresponding `get_column` result
promoted to a one-element atom container (`specRowElement`, written from
the spec's words); (2) when columns have unequal lengths, the call fails
with the index-out-of-bounds error surfaced at the first column shorter
than the index — no pre-validation, as conjunct (1) applied to unequal
prefixes shows indexes below every length still succeed. -/
theorem C8_get_row_is_promoted_row_of_each_column :
    (∀ (tkeys : KVal) (cols : List KVal) (idx : Nat),
      tkeys.is_list = true →
      tkeys.len = (cols.length : Int) →
      (∀ c ∈ cols, c.is_list = true ∧ (idx : Int) < c.len ∧ c.enum_sourced = true) →
      ∃ row, KTable.get_row ⟨⟨tkeys, .CompoundList cols⟩⟩ (idx : Int) []
          = .ok (.Dictionary tkeys (.CompoundList row))
        ∧ row.length = cols.length
        ∧ ∀ j : Nat, j < cols.length →
            ∃ colv, KTable.get_column ⟨⟨tkeys, .CompoundList cols⟩⟩ (j : Int) none = .ok colv
              ∧ row[j]? = specRowElement colv idx) ∧
    (∀ (tkeys : KVal) (pre : List KVal) (c : KVal) (rest : List KVal) (idx : Nat),
      (∀ x ∈ pre, x.is_list = true ∧ (idx : Int) < x.len ∧ x.enum_sourced = true) →
      c.is_list = true → c.enum_sourced = true → c.len ≤ (idx : Int) →
      KTable.get_row ⟨⟨tkeys, .CompoundList (pre ++ c :: rest)⟩⟩ (idx : Int) []
        = .error "index out of bounds, columns were not the same length\x00") := by
  constructor
  · intro tkeys cols idx hk hklen hcols
    obtain ⟨row, hrow, hlen, hget⟩ := getRowLoop_ok idx cols hcols 0
    refine ⟨row, ?_, hlen, ?_⟩
    · have hcl : (KVal.CompoundList row).is_list = true := rfl
      unfold KTable.get_row
      simp [hrow, bind, Except.bind, pure, Except.pure, KDict.new, KDict.toKVal,
        KVal.len, hk, hcl, hklen, hlen]
    · intro j hj
      have hc : cols[j]? = some cols[j] := List.getElem?_eq_getElem hj
      have hgood := hcols cols[j] (List.getElem_mem hj)
      refine ⟨cols[j], get_column_good tkeys cols j cols[j] hc hgood.1 hgood.2.2, ?_⟩
      rw [hget j, hc]
      rfl
  · intro tkeys pre c rest idx hpre hl hsrc hlen
    have hloop := getRowLoop_short idx c rest hl hsrc hlen pre hpre 0
    unfold KTable.get_row
    simp [hloop, bind, Except.bind, pure, Except.pure]

/-- C8 witness: the 3-row, 2-column table of the spec's test, row 1. -/
theorem C8_get_row_is_promoted_row_of_each_column_witness :
    ∃ row,
      KTable.get_row
          ⟨⟨.Symbol (.List ["a", "b"]),
            .CompoundList [.Long (.List [10, 20, 30]), .Symbol (.List ["x", "y", "z"])]⟩⟩
          ((1 : Nat) : Int) []
        = .ok (.Dictionary (.Symbol (.List ["a", "b"])) (.CompoundList row))
      ∧ row.length = 2
      ∧ ∀ j : Nat, j < 2 →
          ∃ colv,
            KTable.get_column
                ⟨⟨.Symbol (.List ["a", "b"]),
                  .CompoundList [.Long (.List [10, 20, 30]), .Symbol (.List ["x", "y", "z"])]⟩⟩
                (j : Int) none
              = .ok colv
            ∧ row[j]? = specRowElement colv 1 :=
  C8_get_row_is_promoted_row_of_each_column.1 (.Symbol (.List ["a", "b"]))
    [.Long (.List [10, 20, 30]), .Symbol (.List ["x", "y", "z"])] 1 (by rfl) (by rfl)
    (by
      intro c hc
      simp only [List.mem_cons, List.mem_singleton, List.not_mem_nil, or_false] at hc
      rcases hc with rfl | rfl
      · exact ⟨rfl, by decide, rfl⟩
      · exact ⟨rfl, by decide, rfl⟩)

end KdbPlus
